import Mathlib

/-!
# AutoGrad: the `MLNet::Tensor` value type and its elementwise operations

A shallow embedding of `src/Tensor.hpp`, `src/Math.hpp` and `src/Exceptions.hpp`.

* `std::vector<T>` is a `List T`; `push_back` appends one element at the end,
  `operator[]` is `index`, `size()` is `List.length`.
* The element type `T` of the template is a parameter; the scalar operations the
  template uses on it (`+ - * /`, `== 0`, `std::numeric_limits<T>::min()`) are the
  fields of the class `SupportedType`.  `F32` is a model of the IEEE-754 binary32
  `float` that `main.cpp` instantiates the template with.
* `std::sin` and `std::exp` belong to the C++ math library and are parameters of
  `MLNet.sin` and `MLNet.exp`.
* A stream is the text written to it so far; the insertion of one element is a
  parameter of `Tensor.print`, and `F32.render` is that insertion for a `float` on a
  stream in its default state.
* A call is modelled with the state of its by-reference arguments after the call next
  to what it returns (`BinaryCall`, `UnaryCall`); a `throw` is `Except.error`.
* `return result;` on a named local either constructs `result` in the caller's object
  (copy elision, which the language permits and does not require) or move-constructs
  the caller's object from it with `Tensor(Tensor&&)`; which of the two the build does
  is the parameter `elided` of the operators and of `sin` and `exp`.
* The loop counters are declared `auto i=0`, hence `int`: the counter is modelled by
  its 32-bit pattern, converted to `std::size_t` by sign extension where it is compared
  with the bound and used as a subscript.  Its increment past `INT_MAX`, which the
  language leaves undefined, wraps to `INT_MIN` as it does on a build without
  optimisation.
-/

/-! ## IEEE-754 binary32 -/

/-- A binary32 value: a not-a-number given by its sign bit and its fraction field
`payload + 1` (the fraction of a NaN is never zero), a signed infinity, or a finite
value given by its sign bit and the 31 low bits of its encoding (biased exponent and
fraction), the latter below the encoding `0x7F800000` of infinity.  The arithmetic
below is that of the SSE instructions of x86-64 in the default rounding mode, as g++
emits them for the four operators without optimisation: an instruction with two NaN
operands returns its first source, which is the left operand for `-` and `/` and, for
the commutative `+` and `*`, the right operand. -/
inductive F32 where
  | nan (neg : Bool) (payload : Fin 0x7FFFFF)
  | inf (neg : Bool)
  | fin (neg : Bool) (mag : Fin 0x7F800000)
deriving DecidableEq

namespace F32

/-- The magnitude encoded by the 31 low bits, in units of 2^-149: with exponent field
`E` and fraction field `f` it is `f` for a subnormal and `(2^23 + f) * 2^(E-1)`
otherwise. -/
def mag149 (m : Nat) : Nat :=
  if m / 2^23 = 0 then m % 2^23 else (2^23 + m % 2^23) * 2^(m / 2^23 - 1)

/-- The least shift `s` from the given one on, within `fuel` steps, at which the
quotient `P / (q * 2^s)` fits in 24 bits. -/
def shiftOf (P q : Nat) : (fuel : Nat) → (s : Nat) → Nat
  | 0, s => s
  | fuel + 1, s => if P / (q * 2^s) < 2^24 then s else shiftOf P q fuel (s + 1)

/-- Round-to-nearest, ties-to-even, of the positive rational `P / q` (in units of
2^-149) to 24 significant bits.  The shift `s` is the exponent field minus one (zero
for a subnormal), the significand `M` is `P / (q * 2^s)` rounded to an integer, and
the result is the 31-bit encoding `s * 2^23 + M`: a carry out of the significand
moves into the exponent field, and the encoding is `0x7F800000` or more exactly when
the rounded value overflows. -/
def roundMag (P q : Nat) : Nat :=
  let s := shiftOf P q 255 0
  let d := q * 2^s
  let M0 := P / d
  let r := P % d
  let M := if d < 2 * r ∨ (2 * r = d ∧ M0 % 2 = 1) then M0 + 1 else M0
  s * 2^23 + M

/-- The value with sign `neg` and 31-bit encoding `bits`; infinity on overflow. -/
def pack (neg : Bool) (bits : Nat) : F32 :=
  if h : bits < 0x7F800000 then .fin neg ⟨bits, h⟩ else .inf neg

/-- Conversion of a natural number literal. -/
def ofNat (n : Nat) : F32 := pack false (roundMag (n * 2^149) 1)

/-- Unary minus: the sign bit is flipped. -/
def neg : F32 → F32
  | .nan s p => .nan (!s) p
  | .inf s => .inf (!s)
  | .fin s m => .fin (!s) m

/-- The NaN an operation returns for a NaN operand: the operand with the quiet bit
`0x400000` of its fraction set. -/
def quiet (neg : Bool) (payload : Fin 0x7FFFFF) : F32 :=
  if h : 0x3FFFFF ≤ payload.val then .nan neg payload
  else .nan neg ⟨payload.val + 0x400000, by omega⟩

/-- The NaN an invalid operation on operands that are not NaN returns: `0xFFC00000`. -/
def default_nan : F32 := .nan true ⟨0x3FFFFF, by decide⟩

/-- Conversion of an integer literal. -/
def ofInt : Int → F32
  | .ofNat n => ofNat n
  | .negSucc n => neg (ofNat (n + 1))

/-- Addition, round-to-nearest-even.  A NaN operand is returned quieted, the right one
when both are NaN. -/
def add : F32 → F32 → F32
  | _, .nan t q => quiet t q
  | .nan s p, _ => quiet s p
  | .inf s, .inf t => if s = t then .inf s else default_nan
  | .inf s, .fin _ _ => .inf s
  | .fin _ _, .inf t => .inf t
  | .fin s a, .fin t b =>
    if s = t then pack s (roundMag (mag149 a + mag149 b) 1)
    else if mag149 b < mag149 a then pack s (roundMag (mag149 a - mag149 b) 1)
    else if mag149 a < mag149 b then pack t (roundMag (mag149 b - mag149 a) 1)
    else pack false 0

/-- Subtraction: a NaN operand is returned quieted, the left one when both are NaN;
otherwise `x - y` is `x + (-y)`. -/
def sub : F32 → F32 → F32
  | .nan s p, _ => quiet s p
  | _, .nan t q => quiet t q
  | x, y => add x (neg y)

/-- Multiplication, round-to-nearest-even.  A NaN operand is returned quieted, the
right one when both are NaN. -/
def mul : F32 → F32 → F32
  | _, .nan t q => quiet t q
  | .nan s p, _ => quiet s p
  | .inf s, .inf t => .inf (xor s t)
  | .inf s, .fin t b => if b.val = 0 then default_nan else .inf (xor s t)
  | .fin s a, .inf t => if a.val = 0 then default_nan else .inf (xor s t)
  | .fin s a, .fin t b => pack (xor s t) (roundMag (mag149 a * mag149 b) (2^149))

/-- Division, round-to-nearest-even; `x / 0` is an infinity or (for `0 / 0`) NaN.  A
NaN operand is returned quieted, the left one when both are NaN. -/
def div : F32 → F32 → F32
  | .nan s p, _ => quiet s p
  | _, .nan t q => quiet t q
  | .inf _, .inf _ => default_nan
  | .inf s, .fin t _ => .inf (xor s t)
  | .fin s _, .inf t => .fin (xor s t) ⟨0, by decide⟩
  | .fin s a, .fin t b =>
    if b.val = 0 then (if a.val = 0 then default_nan else .inf (xor s t))
    else pack (xor s t) (roundMag (mag149 a * 2^149) (mag149 b))

/-- The comparison `x == y`: false on NaN, true between the two zeros. -/
def eq : F32 → F32 → Bool
  | .inf s, .inf t => s == t
  | .fin s a, .fin t b => (a.val == 0 && b.val == 0) || (s == t && a.val == b.val)
  | _, _ => false

/-- The position of a finite value on the number line, as a signed encoding. -/
def signed (neg : Bool) (m : Nat) : Int := if neg then -(m : Int) else (m : Int)

/-- The comparison `x < y`: false on NaN. -/
def lt : F32 → F32 → Bool
  | .nan _ _, _ => false
  | _, .nan _ _ => false
  | .inf s, .inf t => s && !t
  | .inf s, .fin _ _ => s
  | .fin _ _, .inf t => !t
  | .fin s a, .fin t b => decide (signed s a.val < signed t b.val)

/-- Whether the value is a NaN (`std::isnan`). -/
def isNaN : F32 → Bool
  | .nan _ _ => true
  | _ => false

/-- Whether the value is finite (`std::isfinite`). -/
def isFinite : F32 → Bool
  | .fin _ _ => true
  | _ => false

/-- The constant `std::numeric_limits<float>::min()`: the smallest positive normal
value 2^-126 (`FLT_MIN`), encoded `0x00800000`. -/
def numeric_limits_min : F32 := .fin false ⟨0x00800000, by decide⟩

/-- The constant `std::numeric_limits<float>::lowest()`: `-FLT_MAX`. -/
def numeric_limits_lowest : F32 := .fin true ⟨0x7F7FFFFF, by decide⟩

end F32

/-! ## The insertion of a `float` into a stream -/

namespace F32

/-- The least `e` from the given one on, within `fuel` steps, with `N < D * 10^(e+1)`:
the decimal exponent of `N / D`. -/
def decimalExponent (N D : Nat) : (fuel : Nat) → (e : Nat) → Nat
  | 0, e => e
  | fuel + 1, e => if N < D * 10^(e + 1) then e else decimalExponent N D fuel (e + 1)

/-- The digits without the zeros at their end. -/
def stripZeros (digits : List Char) : List Char :=
  (digits.reverse.dropWhile (fun c => c == '0')).reverse

/-- The digits after a decimal point, or nothing when there are none left. -/
def fraction (digits : List Char) : List Char :=
  if stripZeros digits = [] then [] else '.' :: stripZeros digits

/-- The conversion `%g` with precision 6 of the positive value `A * 2^-149`.  With `e`
the decimal exponent plus 50 and `D6` the value rounded (to nearest, ties to even) to
six significant digits, the style is scientific when the exponent is below -4 or at
least 6 and fixed otherwise, and the zeros at the end of the fraction are dropped. -/
def renderMag (A : Nat) : List Char :=
  let e0 := decimalExponent (A * 10^50) (2^149) 100 0
  let num := A * 10^55
  let den := 2^149 * 10^e0
  let q := num / den
  let r := num % den
  let D := if den < 2 * r ∨ (2 * r = den ∧ q % 2 = 1) then q + 1 else q
  let e := if D = 10^6 then e0 + 1 else e0
  let D6 := if D = 10^6 then 10^5 else D
  let digits := Nat.toDigits 10 D6
  if e < 46 then
    digits.take 1 ++ fraction (digits.drop 1) ++ ['e', '-'] ++
      (if 50 - e < 10 then ['0'] else []) ++ Nat.toDigits 10 (50 - e)
  else if e < 50 then
    ['0', '.'] ++ List.replicate (49 - e) '0' ++ stripZeros digits
  else if e < 56 then
    digits.take (e - 49) ++ fraction (digits.drop (e - 49))
  else
    digits.take 1 ++ fraction (digits.drop 1) ++ ['e', '+'] ++
      (if e - 50 < 10 then ['0'] else []) ++ Nat.toDigits 10 (e - 50)

/-- The insertion `stream << val` of a `float` into a stream in its default state: the
conversion `%g` with precision 6 (a NaN is written with its sign). -/
def render : F32 → String
  | .nan s _ => String.mk ((if s then ['-'] else []) ++ ['n', 'a', 'n'])
  | .inf s => String.mk ((if s then ['-'] else []) ++ ['i', 'n', 'f'])
  | .fin s m =>
    String.mk ((if s then ['-'] else []) ++
      (if m.val = 0 then ['0'] else renderMag (mag149 m.val)))

end F32

/-! ## The element type of the template -/

/-- The scalar operations `Tensor<T>` uses on its element type (`SupportedType` admits
the floating-point types): the conversion of the literal `0`, the four arithmetic
operators, the comparison `==` and `std::numeric_limits<T>::min()`. -/
class SupportedType (T : Type) where
  zero : T
  add : T → T → T
  sub : T → T → T
  mul : T → T → T
  div : T → T → T
  eq : T → T → Bool
  numeric_limits_min : T

/-- The element type `float`. -/
instance : SupportedType F32 where
  zero := F32.ofNat 0
  add := F32.add
  sub := F32.sub
  mul := F32.mul
  div := F32.div
  eq := F32.eq
  numeric_limits_min := F32.numeric_limits_min

/-- The provenance tags of `enum class TFunction`. -/
inductive TFunction where
  | ADDITION
  | SUBSTRACTION
  | PRODUCT
  | DIVISION
  | SIN
  | EXP
  | NO_OPERATION
deriving DecidableEq

/-- The exception class of `Exceptions.hpp`, carrying its message. -/
structure UnmatchingTensorSizes where
  message : String
deriving DecidableEq

/-- The member `what()`: the message. -/
def UnmatchingTensorSizes.what (e : UnmatchingTensorSizes) : String := e.message

/-- The function `std::to_string` on a `std::size_t`: the decimal digits. -/
def to_string (n : Nat) : String := Nat.repr n

/-- The unchecked element access `v[i]` of `std::vector`.  Every access of the loops
below follows a test `i < n` against the size and is within bounds; the fallback value
is never read there. -/
def index {T : Type} [SupportedType T] (v : List T) (i : Nat) : T :=
  v.getD i SupportedType.zero

/-- The member `push_back` of `std::vector`. -/
def push_back {T : Type} (v : List T) (x : T) : List T := v ++ [x]

/-- The conversion of the `int` counter, given by its 32-bit two's complement pattern,
to `std::size_t`, as it happens in the comparison `i < n` and in the subscript `v[i]`:
a negative counter becomes a value of `2^64 - 2^31` or more. -/
def to_size_t (i : Nat) : Nat := if i < 2^31 then i else 2^64 - 2^32 + i

/-- The increment `i++` of the `int` counter, on its 32-bit pattern: past `INT_MAX` the
counter wraps to `INT_MIN`. -/
def increment (i : Nat) : Nat := (i + 1) % 2^32

/-- The loop `for (auto i = 0; i < n; i++) body`, entered at the counter pattern `i`.
The bound `n` is read from the state of the variables in scope at every test, `body`
receives the subscript and transforms that state, and `fuel` bounds the number of
tests.  The counter has 2^32 values and the test depends on it alone when the bound
does not change, so a run that has not left the loop after 2^32 tests never does; the
callers pass that much fuel. -/
def forLoop {σ : Type} (bound : σ → Nat) (body : Nat → σ → σ) :
    (fuel : Nat) → (i : Nat) → σ → σ
  | 0, _, st => st
  | fuel + 1, i, st =>
    if to_size_t i < bound st then
      forLoop bound body fuel (increment i) (body (to_size_t i) st)
    else st

namespace MLNet

/-- The class `Tensor<T>`: its two data members, `function` with its default member
initializer. -/
structure Tensor (T : Type) where
  value : List T
  function : TFunction := TFunction.NO_OPERATION
deriving DecidableEq

namespace Tensor

variable {T : Type}

/-- The constructor `Tensor()`. -/
def new : Tensor T := { value := [] }

/-- The constructor `Tensor(const std::vector<T>& _value)`. -/
def ofVector (_value : List T) : Tensor T := { value := _value }

/-- The constructor `Tensor(const T _value)`. -/
def ofScalar (_value : T) : Tensor T := { value := [_value] }

/-- The constructor `Tensor(const Tensor& other)`; only `value` is initialised from
`other`. -/
def copy (other : Tensor T) : Tensor T := { value := other.value }

/-- The constructor `Tensor(std::vector<T>&& _value)`: the constructed tensor and the
vector moved from, which is left empty. -/
def ofVectorMove (_value : List T) : Tensor T × List T := ({ value := _value }, [])

/-- The constructor `Tensor(Tensor&& other)`: the constructed tensor and `other` after
the move, its `value` left empty and its `function` untouched. -/
def move (other : Tensor T) : Tensor T × Tensor T :=
  ({ value := other.value }, { other with value := [] })

/-- The statement `return result;` on the named local `result`: what the caller
receives.  When the copy is elided that is `result` itself; otherwise it is the tensor
`Tensor(Tensor&&)` constructs from `result`. -/
def return_local (elided : Bool) (result : Tensor T) : Tensor T :=
  if elided then result else (Tensor.move result).1

/-- The member `get_value`. -/
def get_value (self : Tensor T) : List T := self.value

/-- The member `set_value`. -/
def set_value (self : Tensor T) (_value : List T) : Tensor T := { self with value := _value }

/-- The member `get_function`. -/
def get_function (self : Tensor T) : TFunction := self.function

/-- The member `set_function`. -/
def set_function (self : Tensor T) (_function : TFunction) : Tensor T :=
  { self with function := _function }

/-- The stream inserter `operator<<`; `render` is the insertion of one element and the
stream is the text written so far. -/
def print (render : T → String) (stream : String) (tensor : Tensor T) : String :=
  let stream := stream ++ "["
  let stream := tensor.value.foldl (fun stream val => stream ++ render val ++ " ") stream
  stream ++ "]"

end Tensor

/-- A call of a binary operator: what it returns or throws, and `*this` and `other`
after the call. -/
structure BinaryCall (T : Type) where
  self : Tensor T
  other : Tensor T
  outcome : Except UnmatchingTensorSizes (Tensor T)

/-- The objects in scope in the body of a binary operator. -/
structure BinaryScope (T : Type) where
  self : Tensor T
  other : Tensor T
  result : Tensor T

/-- A call of one of the `const` getters: what it returns, and `*this` after the
call. -/
structure GetterCall (T R : Type) where
  self : Tensor T
  returned : R

/-- A call of `get_value`: the body `return value;` copies the member out and writes
to no member. -/
def Tensor.call_get_value {T : Type} (self : Tensor T) : GetterCall T (List T) :=
  { self := self, returned := self.get_value }

/-- A call of `get_function`: the body `return this->function;` writes to no member. -/
def Tensor.call_get_function {T : Type} (self : Tensor T) : GetterCall T TFunction :=
  { self := self, returned := self.get_function }

/-- The message built before the `throw`. -/
def mismatch_message (self_size other_size : Nat) : String :=
  "Tensor a's shape (" ++ to_string self_size ++ ") is different than Tensor b's shape ("
    ++ to_string other_size ++ "). Both Tensors should have the same shape."

namespace Tensor

variable {T : Type} [SupportedType T]

/-- The member `operator+`; `elided` tells how the build returns the local `result`. -/
def operator_add (elided : Bool) (self other : Tensor T) : BinaryCall T :=
  if self.value.length ≠ other.value.length then
    let message := mismatch_message self.value.length other.value.length
    { self := self, other := other, outcome := .error (UnmatchingTensorSizes.mk message) }
  else
    let tensor_len := self.value.length
    let st := forLoop (fun _ => tensor_len) (fun i (st : BinaryScope T) =>
        let x := SupportedType.add (index st.self.value i) (index st.other.value i)
        { st with result := { st.result with value := push_back st.result.value x } })
      4294967296 0 { self := self, other := other, result := Tensor.new }
    let result := { st.result with function := TFunction.ADDITION }
    { self := st.self, other := st.other, outcome := .ok (return_local elided result) }

/-- The member `operator-`. -/
def operator_sub (elided : Bool) (self other : Tensor T) : BinaryCall T :=
  if self.value.length ≠ other.value.length then
    let message := mismatch_message self.value.length other.value.length
    { self := self, other := other, outcome := .error (UnmatchingTensorSizes.mk message) }
  else
    let tensor_len := self.value.length
    let st := forLoop (fun _ => tensor_len) (fun i (st : BinaryScope T) =>
        let x := SupportedType.sub (index st.self.value i) (index st.other.value i)
        { st with result := { st.result with value := push_back st.result.value x } })
      4294967296 0 { self := self, other := other, result := Tensor.new }
    let result := { st.result with function := TFunction.SUBSTRACTION }
    { self := st.self, other := st.other, outcome := .ok (return_local elided result) }

/-- The member `operator*`. -/
def operator_mul (elided : Bool) (self other : Tensor T) : BinaryCall T :=
  if self.value.length ≠ other.value.length then
    let message := mismatch_message self.value.length other.value.length
    { self := self, other := other, outcome := .error (UnmatchingTensorSizes.mk message) }
  else
    let tensor_len := self.value.length
    let st := forLoop (fun _ => tensor_len) (fun i (st : BinaryScope T) =>
        let x := SupportedType.mul (index st.self.value i) (index st.other.value i)
        { st with result := { st.result with value := push_back st.result.value x } })
      4294967296 0 { self := self, other := other, result := Tensor.new }
    let result := { st.result with function := TFunction.PRODUCT }
    { self := st.self, other := st.other, outcome := .ok (return_local elided result) }

/-- The member `operator/`. -/
def operator_div (elided : Bool) (self other : Tensor T) : BinaryCall T :=
  if self.value.length ≠ other.value.length then
    let message := mismatch_message self.value.length other.value.length
    { self := self, other := other, outcome := .error (UnmatchingTensorSizes.mk message) }
  else
    let tensor_len := self.value.length
    let st := forLoop (fun _ => tensor_len) (fun i (st : BinaryScope T) =>
        if SupportedType.eq (index st.other.value i) SupportedType.zero then
          let x : T := SupportedType.numeric_limits_min
          { st with result := { st.result with value := push_back st.result.value x } }
        else
          let x := SupportedType.div (index st.self.value i) (index st.other.value i)
          { st with result := { st.result with value := push_back st.result.value x } })
      4294967296 0 { self := self, other := other, result := Tensor.new }
    let result := { st.result with function := TFunction.DIVISION }
    { self := st.self, other := st.other, outcome := .ok (return_local elided result) }

end Tensor

/-- A call of `sin` or `exp`: the tensor returned, and the argument after the call. -/
structure UnaryCall (T : Type) where
  tensor : Tensor T
  returned : Tensor T

/-- The objects in scope in the body of `sin` and `exp`. -/
structure UnaryScope (T : Type) where
  tensor : Tensor T
  result : Tensor T
  tensor_values : List T

variable {T : Type} [SupportedType T]

/-- The function `MLNet::sin`; `std_sin` is `static_cast<T>(std::sin(x))` and `elided`
tells how the build returns the local `result`. -/
def sin (elided : Bool) (std_sin : T → T) (tensor : Tensor T) : UnaryCall T :=
  let result := Tensor.copy tensor
  let tensor_values := result.get_value
  let st := forLoop (fun (st : UnaryScope T) => st.tensor_values.length)
    (fun i (st : UnaryScope T) =>
      { st with tensor_values := st.tensor_values.set i (std_sin (index st.tensor_values i)) })
    4294967296 0 { tensor := tensor, result := result, tensor_values := tensor_values }
  let result := st.result.set_value st.tensor_values
  let result := result.set_function TFunction.SIN
  { tensor := st.tensor, returned := Tensor.return_local elided result }

/-- The function `MLNet::exp`; `std_exp` is `static_cast<T>(std::exp(x))` and `elided`
tells how the build returns the local `result`. -/
def exp (elided : Bool) (std_exp : T → T) (tensor : Tensor T) : UnaryCall T :=
  let result := Tensor.copy tensor
  let tensor_values := result.get_value
  let st := forLoop (fun (st : UnaryScope T) => st.tensor_values.length)
    (fun i (st : UnaryScope T) =>
      { st with tensor_values := st.tensor_values.set i (std_exp (index st.tensor_values i)) })
    4294967296 0 { tensor := tensor, result := result, tensor_values := tensor_values }
  let result := st.result.set_value st.tensor_values
  let result := result.set_function TFunction.EXP
  { tensor := st.tensor, returned := Tensor.return_local elided result }

end MLNet

open MLNet

/-! ## Auxiliary definitions of the development -/

/-- The element `operator/` stores for the dividend `x` and the divisor `y`: the two
branches of its loop body as one scalar function. -/
def quotient_or_sentinel {T : Type} [SupportedType T] (x y : T) : T :=
  if SupportedType.eq y SupportedType.zero then SupportedType.numeric_limits_min
  else SupportedType.div x y

/-- A stand-in for `std::sin` on `float` in closed examples: the Maclaurin polynomial
`x - x^3/6` evaluated in `float` arithmetic.  It maps zero to zero, as the C library
does. -/
def F32.sin_maclaurin (x : F32) : F32 :=
  F32.sub x (F32.div (F32.mul (F32.mul x x) x) (F32.ofNat 6))

/-- A stand-in for `std::exp` on `float` in closed examples: the Maclaurin polynomial
`1 + x + x^2/2` evaluated in `float` arithmetic. -/
def F32.exp_maclaurin (x : F32) : F32 :=
  F32.add (F32.add (F32.ofNat 1) x) (F32.div (F32.mul x x) (F32.ofNat 2))

/-! ## Closed examples on `float` -/

/-- The tensor `[1, 2, 3, 4]` of `main.cpp`. -/
def tensor1 : Tensor F32 := Tensor.ofVector [F32.ofNat 1, F32.ofNat 2, F32.ofNat 3, F32.ofNat 4]

/-- The tensor `[6, 7, 8, 9]` of `main.cpp`. -/
def tensor2 : Tensor F32 := Tensor.ofVector [F32.ofNat 6, F32.ofNat 7, F32.ofNat 8, F32.ofNat 9]

/-- The tensor `[9, 8, 7, 6]` of `main.cpp`. -/
def tensor3 : Tensor F32 := Tensor.ofVector [F32.ofNat 9, F32.ofNat 8, F32.ofNat 7, F32.ofNat 6]

/-- The tensor `[1, 0, 1]`. -/
def tensor101 : Tensor F32 := Tensor.ofVector [F32.ofNat 1, F32.ofNat 0, F32.ofNat 1]

/-- A tensor of three elements, `[1, 2, 3]`. -/
def tensor123 : Tensor F32 := Tensor.ofVector [F32.ofNat 1, F32.ofNat 2, F32.ofNat 3]

/-- A tensor of two elements, `[1, 2]`. -/
def tensor12 : Tensor F32 := Tensor.ofVector [F32.ofNat 1, F32.ofNat 2]


/-- A one-element tensor holding the NaN `0x7FC00000`. -/
def tensor_nan : Tensor F32 := Tensor.ofScalar (F32.nan false ⟨0x3FFFFF, by decide⟩)

/-- A one-element tensor holding the NaN `0xFFC00000`. -/
def tensor_minus_nan : Tensor F32 := Tensor.ofScalar (F32.nan true ⟨0x3FFFFF, by decide⟩)

/-! ## The subscripts a loop visits -/

/-- The subscripts the loop `for (auto i = 0; i < n; i++)` runs its body on, from the
counter pattern `i` on, in order. -/
def visited (n : Nat) : (fuel : Nat) → (i : Nat) → List Nat
  | 0, _ => []
  | fuel + 1, i =>
    if to_size_t i < n then to_size_t i :: visited n fuel (increment i) else []

/-- The vector the loop of `sin` and `exp` leaves, from the counter pattern `i` on: the
element at every subscript the loop visits is replaced by its image under `f`. -/
def replaced {T : Type} [SupportedType T] (f : T → T) : (fuel : Nat) → (i : Nat) → List T → List T
  | 0, _, values => values
  | fuel + 1, i, values =>
    if to_size_t i < values.length then
      replaced f fuel (increment i) (values.set (to_size_t i) (f (index values (to_size_t i))))
    else values

/-- The vector the loop of a binary operator builds from the vectors `a` and `b` of its
operands with the scalar operation `g`: the combined elements of the subscripts the
loop visits. -/
def combined {T : Type} [SupportedType T] (g : T → T → T) (a b : List T) : List T :=
  (visited a.length 4294967296 0).map (fun j => g (index a j) (index b j))

/-- The tensor of `n` elements `x`. -/
def constant_tensor {T : Type} (n : Nat) (x : T) : Tensor T :=
  Tensor.ofVector (List.replicate n x)

/-! ## The binary32 model on known values -/

/-- The encodings the model computes for `1`, `-5`, `1/3`, `1/10` and `1/10 + 2/10`,
for `2^24 + 1` (a tie, rounded to the even neighbour) and for half of `FLT_MIN` (a
subnormal) are those of IEEE-754 single precision. -/
theorem F32_known_encodings :
    F32.ofNat 1 = .fin false ⟨0x3F800000, by decide⟩ ∧
    F32.ofInt (-5) = .fin true ⟨0x40A00000, by decide⟩ ∧
    F32.div (F32.ofNat 1) (F32.ofNat 3) = .fin false ⟨0x3EAAAAAB, by decide⟩ ∧
    F32.div (F32.ofNat 1) (F32.ofNat 10) = .fin false ⟨0x3DCCCCCD, by decide⟩ ∧
    F32.add (F32.div (F32.ofNat 1) (F32.ofNat 10)) (F32.div (F32.ofNat 2) (F32.ofNat 10))
      = .fin false ⟨0x3E99999A, by decide⟩ ∧
    F32.ofNat 16777217 = .fin false ⟨0x4B800000, by decide⟩ ∧
    F32.div F32.numeric_limits_min (F32.ofNat 2) = .fin false ⟨0x00400000, by decide⟩ := by
  decide

/-! ## The loop counter -/

/-- A counter that is not negative converts to itself. -/
theorem to_size_t_of_lt {i : Nat} (h : i < 2^31) : to_size_t i = i := by
  unfold to_size_t
  rw [if_pos h]

/-- Below `INT_MAX` plus one the increment is the successor. -/
theorem increment_of_lt {i : Nat} (h : i < 2^31) : increment i = i + 1 := by
  unfold increment
  omega

/-- The test that ends the loop.  With `n` the bound, the loop reaches the counter
`min n 2^31`; there the test `i < n` fails, because the counter equals `n` or because
it has wrapped to `INT_MIN`, which converts to `2^64 - 2^31`. -/
theorem to_size_t_at_exit {n : Nat} (hn : n ≤ 2^64 - 2^31) :
    ¬ to_size_t (min n (2^31)) < n := by
  unfold to_size_t
  split <;> omega

/-- The subscripts visited for a bound `n` of at most `2^64 - 2^31` (every size a
vector can have): `0, 1, ...` up to `n` and not beyond `2^31`. -/
theorem visited_eq {n : Nat} (hn : n ≤ 2^64 - 2^31) :
    ∀ (fuel i : Nat), i ≤ min n (2^31) → min n (2^31) - i ≤ fuel →
      visited n fuel i = List.range' i (min n (2^31) - i) := by
  intro fuel
  induction fuel with
  | zero =>
    intro i _ hf
    have h0 : min n (2^31) - i = 0 := by omega
    rw [h0]
    rfl
  | succ fuel ih =>
    intro i hi hf
    by_cases hlt : i < min n (2^31)
    · have hi31 : i < 2^31 := by omega
      have hin : i < n := by omega
      have hstep := ih (i + 1) (by omega) (by omega)
      have hlen : min n (2^31) - i = (min n (2^31) - (i + 1)) + 1 := by omega
      simp only [visited, to_size_t_of_lt hi31, increment_of_lt hi31, hin, if_true]
      rw [hstep, hlen, List.range'_succ]
    · have hie : i = min n (2^31) := by omega
      have h0 : min n (2^31) - i = 0 := by omega
      have hexit := to_size_t_at_exit hn
      rw [← hie] at hexit
      rw [h0]
      simp only [visited, if_neg hexit]
      rfl

section Loops

variable {T : Type} [SupportedType T]

/-- An access within bounds reads the element. -/
theorem index_eq_of_getElem? {v : List T} {i : Nat} {x : T} (h : v[i]? = some x) :
    index v i = x := by
  simp [index, List.getD, h]

/-- The loop of a binary operator whose body pushes `g (self[i], other[i])`: it leaves
`self` and `other` alone and appends the combined elements of the subscripts it
visits. -/
theorem forLoop_push (g : T → T → T) (self other : Tensor T) (n : Nat) :
    ∀ (fuel i : Nat) (result : Tensor T),
      forLoop (fun _ => n) (fun i (st : BinaryScope T) =>
          let x := g (index st.self.value i) (index st.other.value i)
          { st with result := { st.result with value := push_back st.result.value x } })
        fuel i { self := self, other := other, result := result }
      = { self := self, other := other,
          result := { result with value := result.value ++
            (visited n fuel i).map (fun j => g (index self.value j) (index other.value j)) } } := by
  intro fuel
  induction fuel with
  | zero => intro i result; simp [forLoop, visited]
  | succ fuel ih =>
    intro i result
    by_cases h : to_size_t i < n
    · simp only [forLoop, visited, h, if_true]
      rw [ih]
      simp [push_back]
    · simp [forLoop, visited, h]

/-- Over two vectors of the same length the combined elements of the first `m`
subscripts are the pairwise combination of the first `m` elements. -/
theorem map_range_eq_zipWith_take (g : T → T → T) (a b : List T)
    (h : a.length = b.length) (m : Nat) (hm : m ≤ a.length) :
    (List.range' 0 m).map (fun j => g (index a j) (index b j))
      = List.zipWith g (a.take m) (b.take m) := by
  apply List.ext_getElem
  · simp [← h, hm]
  · intro j h1 h2
    have hj : j < m := by simpa using h1
    have ha : j < a.length := by omega
    have hb : j < b.length := h ▸ ha
    simp [index, List.getD, List.getElem?_eq_getElem ha, List.getElem?_eq_getElem hb,
      List.getElem_take]

end Loops

/-! ## What each operator computes -/

section Operators

variable {T : Type} [SupportedType T]

/-- Within the range of the counter, up to 2^31 elements, the loop of a binary operator
combines the operands pairwise. -/
theorem combined_of_le (g : T → T → T) (a b : List T) (h : a.length = b.length)
    (hle : a.length ≤ 2^31) : combined g a b = List.zipWith g a b := by
  unfold combined
  have hv := visited_eq (n := a.length) (by omega) 4294967296 0 (Nat.zero_le _) (by omega)
  rw [hv, Nat.sub_zero, Nat.min_eq_left hle,
    map_range_eq_zipWith_take g a b h a.length (Nat.le_refl _), List.take_length,
    h, List.take_length]

/-- Past the range of the counter the loop of a binary operator stops after 2^31
elements: it combines the first 2^31 elements of the operands and no more. -/
theorem combined_past (g : T → T → T) (a b : List T) (h : a.length = b.length)
    (hlt : 2^31 < a.length) (hle : a.length ≤ 2^64 - 2^31) :
    combined g a b = List.zipWith g (a.take (2^31)) (b.take (2^31)) := by
  unfold combined
  have hv := visited_eq (n := a.length) hle 4294967296 0 (Nat.zero_le _) (by omega)
  rw [hv, Nat.sub_zero, Nat.min_eq_right (Nat.le_of_lt hlt),
    map_range_eq_zipWith_take g a b h (2^31) (Nat.le_of_lt hlt)]

/-- Past the range of the counter the vector a binary operator builds holds 2^31
elements. -/
theorem length_combined_past (g : T → T → T) (a b : List T) (h : a.length = b.length)
    (hlt : 2^31 < a.length) (hle : a.length ≤ 2^64 - 2^31) :
    (combined g a b).length = 2^31 := by
  rw [combined_past g a b h hlt hle, List.length_zipWith, List.length_take,
    List.length_take, ← h]
  omega

theorem operator_add_of_eq (elided : Bool) (a b : Tensor T)
    (h : a.value.length = b.value.length) :
    a.operator_add elided b = { self := a, other := b, outcome := .ok (Tensor.return_local elided ⟨combined SupportedType.add a.value b.value, TFunction.ADDITION⟩) } := by
  unfold Tensor.operator_add
  rw [if_neg (not_not.mpr h)]
  simp only [forLoop_push, Tensor.new, List.nil_append]
  rfl

theorem operator_sub_of_eq (elided : Bool) (a b : Tensor T)
    (h : a.value.length = b.value.length) :
    a.operator_sub elided b = { self := a, other := b, outcome := .ok (Tensor.return_local elided ⟨combined SupportedType.sub a.value b.value, TFunction.SUBSTRACTION⟩) } := by
  unfold Tensor.operator_sub
  rw [if_neg (not_not.mpr h)]
  simp only [forLoop_push, Tensor.new, List.nil_append]
  rfl

theorem operator_mul_of_eq (elided : Bool) (a b : Tensor T)
    (h : a.value.length = b.value.length) :
    a.operator_mul elided b = { self := a, other := b, outcome := .ok (Tensor.return_local elided ⟨combined SupportedType.mul a.value b.value, TFunction.PRODUCT⟩) } := by
  unfold Tensor.operator_mul
  rw [if_neg (not_not.mpr h)]
  simp only [forLoop_push, Tensor.new, List.nil_append]
  rfl

theorem operator_div_of_eq (elided : Bool) (a b : Tensor T)
    (h : a.value.length = b.value.length) :
    a.operator_div elided b = { self := a, other := b, outcome := .ok (Tensor.return_local elided ⟨combined quotient_or_sentinel a.value b.value, TFunction.DIVISION⟩) } := by
  unfold Tensor.operator_div
  rw [if_neg (not_not.mpr h)]
  have hbody : (fun i (st : BinaryScope T) =>
        if SupportedType.eq (index st.other.value i) SupportedType.zero then
          let x : T := SupportedType.numeric_limits_min
          { st with result := { st.result with value := push_back st.result.value x } }
        else
          let x := SupportedType.div (index st.self.value i) (index st.other.value i)
          { st with result := { st.result with value := push_back st.result.value x } })
      = (fun i (st : BinaryScope T) =>
          let x := quotient_or_sentinel (index st.self.value i) (index st.other.value i)
          { st with result := { st.result with value := push_back st.result.value x } }) := by
    funext i st
    unfold quotient_or_sentinel
    split <;> rfl
  simp only [hbody, forLoop_push, Tensor.new, List.nil_append]
  rfl

theorem operator_add_of_ne (elided : Bool) (a b : Tensor T)
    (h : a.value.length ≠ b.value.length) :
    a.operator_add elided b = { self := a, other := b, outcome := .error ⟨mismatch_message a.value.length b.value.length⟩ } := by
  unfold Tensor.operator_add
  rw [if_pos h]

theorem operator_sub_of_ne (elided : Bool) (a b : Tensor T)
    (h : a.value.length ≠ b.value.length) :
    a.operator_sub elided b = { self := a, other := b, outcome := .error ⟨mismatch_message a.value.length b.value.length⟩ } := by
  unfold Tensor.operator_sub
  rw [if_pos h]

theorem operator_mul_of_ne (elided : Bool) (a b : Tensor T)
    (h : a.value.length ≠ b.value.length) :
    a.operator_mul elided b = { self := a, other := b, outcome := .error ⟨mismatch_message a.value.length b.value.length⟩ } := by
  unfold Tensor.operator_mul
  rw [if_pos h]

theorem operator_div_of_ne (elided : Bool) (a b : Tensor T)
    (h : a.value.length ≠ b.value.length) :
    a.operator_div elided b = { self := a, other := b, outcome := .error ⟨mismatch_message a.value.length b.value.length⟩ } := by
  unfold Tensor.operator_div
  rw [if_pos h]

end Operators

/-- Whichever way the local is returned, the caller receives its element sequence. -/
theorem return_local_value {T : Type} (elided : Bool) (result : Tensor T) :
    (Tensor.return_local elided result).value = result.value := by
  cases elided <;> rfl

/-- The element at position `i` of a pairwise combination. -/
theorem getElem?_zipWith_of_some {T : Type} (g : T → T → T) {a b : List T} {i : Nat} {x y : T}
    (ha : a[i]? = some x) (hb : b[i]? = some y) :
    (List.zipWith g a b)[i]? = some (g x y) := by
  simp [List.getElem?_zipWith, ha, hb]

/-! ## The arithmetic operators -/

section Arithmetic

variable {T : Type} [SupportedType T]

/-- Within the range of the loop counter: for tensors `a` and `b` with the same number
of elements, at most 2^31, each of `a + b`, `a - b` and `a * b` returns a tensor with as
many elements as `a`, whose element at every position is the sum, the difference, the
product of the elements of `a` and `b` at that position. -/
theorem add_sub_mul_elementwise (elided : Bool) (a b : Tensor T)
    (h : a.value.length = b.value.length) (hle : a.value.length ≤ 2^31) :
    (∃ r, (a.operator_add elided b).outcome = .ok r ∧ r.value.length = a.value.length ∧
      ∀ (i : Nat) (x y : T), a.value[i]? = some x → b.value[i]? = some y →
        r.value[i]? = some (SupportedType.add x y)) ∧
    (∃ r, (a.operator_sub elided b).outcome = .ok r ∧ r.value.length = a.value.length ∧
      ∀ (i : Nat) (x y : T), a.value[i]? = some x → b.value[i]? = some y →
        r.value[i]? = some (SupportedType.sub x y)) ∧
    (∃ r, (a.operator_mul elided b).outcome = .ok r ∧ r.value.length = a.value.length ∧
      ∀ (i : Nat) (x y : T), a.value[i]? = some x → b.value[i]? = some y →
        r.value[i]? = some (SupportedType.mul x y)) := by
  rw [operator_add_of_eq elided a b h, operator_sub_of_eq elided a b h,
    operator_mul_of_eq elided a b h]
  refine ⟨⟨_, rfl, ?_, ?_⟩, ⟨_, rfl, ?_, ?_⟩, ⟨_, rfl, ?_, ?_⟩⟩ <;>
    rw [return_local_value, combined_of_le _ _ _ h hle]
  · simp [h]
  · intro i x y hx hy; exact getElem?_zipWith_of_some _ hx hy
  · simp [h]
  · intro i x y hx hy; exact getElem?_zipWith_of_some _ hx hy
  · simp [h]
  · intro i x y hx hy; exact getElem?_zipWith_of_some _ hx hy

/-- Within the range of the loop counter: for tensors `a` and `b` with the same number
of elements, at most 2^31, `a / b` returns a tensor with as many elements as `a`; at
every position, where the element of `b` does not compare equal to zero the result
holds the quotient of the two elements, and where it does the result holds
`std::numeric_limits<T>::min()`, whatever the element of `a`. -/
theorem div_elementwise (elided : Bool) (a b : Tensor T)
    (h : a.value.length = b.value.length) (hle : a.value.length ≤ 2^31) :
    ∃ r, (a.operator_div elided b).outcome = .ok r ∧ r.value.length = a.value.length ∧
      ∀ (i : Nat) (x y : T), a.value[i]? = some x → b.value[i]? = some y →
        (SupportedType.eq y SupportedType.zero = false →
          r.value[i]? = some (SupportedType.div x y)) ∧
        (SupportedType.eq y SupportedType.zero = true →
          r.value[i]? = some SupportedType.numeric_limits_min) := by
  rw [operator_div_of_eq elided a b h]
  refine ⟨_, rfl, ?_, ?_⟩ <;> rw [return_local_value, combined_of_le _ _ _ h hle]
  · simp [h]
  · intro i x y hx hy
    have hr := getElem?_zipWith_of_some quotient_or_sentinel hx hy
    constructor
    · intro hy0
      rw [hr]; simp [quotient_or_sentinel, hy0]
    · intro hy0
      rw [hr]; simp [quotient_or_sentinel, hy0]

/-- Past the range of the loop counter: for tensors `a` and `b` with the same number
of elements, more than 2^31, every operator returns a tensor of 2^31 elements only. -/
theorem operators_short_past_range (elided : Bool) (a b : Tensor T)
    (h : a.value.length = b.value.length) (hlt : 2^31 < a.value.length)
    (hle : a.value.length ≤ 2^64 - 2^31) :
    (∃ r, (a.operator_add elided b).outcome = .ok r ∧ r.value.length = 2^31) ∧
    (∃ r, (a.operator_sub elided b).outcome = .ok r ∧ r.value.length = 2^31) ∧
    (∃ r, (a.operator_mul elided b).outcome = .ok r ∧ r.value.length = 2^31) ∧
    (∃ r, (a.operator_div elided b).outcome = .ok r ∧ r.value.length = 2^31) := by
  rw [operator_add_of_eq elided a b h, operator_sub_of_eq elided a b h,
    operator_mul_of_eq elided a b h, operator_div_of_eq elided a b h]
  refine ⟨⟨_, rfl, ?_⟩, ⟨_, rfl, ?_⟩, ⟨_, rfl, ?_⟩, ⟨_, rfl, ?_⟩⟩ <;>
    rw [return_local_value] <;> exact length_combined_past _ _ _ h hlt hle

/-- C3: each arithmetic operator throws `UnmatchingTensorSizes` exactly when the
element counts of its operands differ; so a one-element tensor combined with a tensor
of any other length throws, on either side, and a division of tensors of the same
length returns whatever the divisor holds, zeros included. -/
theorem throws_iff_lengths_differ (elided : Bool) (a b : Tensor T) :
    ((∃ e, (a.operator_add elided b).outcome = .error e) ↔ a.value.length ≠ b.value.length) ∧
    ((∃ e, (a.operator_sub elided b).outcome = .error e) ↔ a.value.length ≠ b.value.length) ∧
    ((∃ e, (a.operator_mul elided b).outcome = .error e) ↔ a.value.length ≠ b.value.length) ∧
    ((∃ e, (a.operator_div elided b).outcome = .error e) ↔ a.value.length ≠ b.value.length) ∧
    (a.value.length = 1 → b.value.length ≠ 1 →
      (∃ e, (a.operator_add elided b).outcome = .error e) ∧
      (∃ e, (b.operator_add elided a).outcome = .error e) ∧
      (∃ e, (a.operator_sub elided b).outcome = .error e) ∧
      (∃ e, (b.operator_sub elided a).outcome = .error e) ∧
      (∃ e, (a.operator_mul elided b).outcome = .error e) ∧
      (∃ e, (b.operator_mul elided a).outcome = .error e) ∧
      (∃ e, (a.operator_div elided b).outcome = .error e) ∧
      (∃ e, (b.operator_div elided a).outcome = .error e)) ∧
    (a.value.length = b.value.length → ∃ r, (a.operator_div elided b).outcome = .ok r) := by
  have key : ∀ (op : Tensor T → Tensor T → BinaryCall T),
      (∀ x y : Tensor T, x.value.length = y.value.length → ∃ r, (op x y).outcome = .ok r) →
      (∀ x y : Tensor T, x.value.length ≠ y.value.length → ∃ e, (op x y).outcome = .error e) →
      ∀ x y : Tensor T, (∃ e, (op x y).outcome = .error e) ↔ x.value.length ≠ y.value.length := by
    intro op hok herr x y
    constructor
    · rintro ⟨e, he⟩ heq
      obtain ⟨r, hr⟩ := hok x y heq
      rw [hr] at he
      cases he
    · exact herr x y
  have hadd := key (Tensor.operator_add elided)
    (fun x y h => ⟨_, by rw [operator_add_of_eq elided x y h]⟩)
    (fun x y h => ⟨_, by rw [operator_add_of_ne elided x y h]⟩)
  have hsub := key (Tensor.operator_sub elided)
    (fun x y h => ⟨_, by rw [operator_sub_of_eq elided x y h]⟩)
    (fun x y h => ⟨_, by rw [operator_sub_of_ne elided x y h]⟩)
  have hmul := key (Tensor.operator_mul elided)
    (fun x y h => ⟨_, by rw [operator_mul_of_eq elided x y h]⟩)
    (fun x y h => ⟨_, by rw [operator_mul_of_ne elided x y h]⟩)
  have hdiv := key (Tensor.operator_div elided)
    (fun x y h => ⟨_, by rw [operator_div_of_eq elided x y h]⟩)
    (fun x y h => ⟨_, by rw [operator_div_of_ne elided x y h]⟩)
  refine ⟨hadd a b, hsub a b, hmul a b, hdiv a b, ?_, ?_⟩
  · intro ha hb
    have hab : a.value.length ≠ b.value.length := by omega
    have hba : b.value.length ≠ a.value.length := by omega
    exact ⟨(hadd a b).2 hab, (hadd b a).2 hba, (hsub a b).2 hab, (hsub b a).2 hba,
      (hmul a b).2 hab, (hmul b a).2 hba, (hdiv a b).2 hab, (hdiv b a).2 hba⟩
  · intro h
    exact ⟨_, by rw [operator_div_of_eq elided a b h]⟩

/-- The tag the caller receives from an operator on tensors with the same number of
elements: the tag of the operator when the return of the local is elided, and
`NO_OPERATION` when the caller's tensor is move-constructed from it, whatever tags `a`
and `b` carry. -/
theorem result_function_of_return (elided : Bool) (a b : Tensor T)
    (h : a.value.length = b.value.length) :
    (∃ r, (a.operator_add elided b).outcome = .ok r ∧
      r.get_function = if elided then TFunction.ADDITION else TFunction.NO_OPERATION) ∧
    (∃ r, (a.operator_sub elided b).outcome = .ok r ∧
      r.get_function = if elided then TFunction.SUBSTRACTION else TFunction.NO_OPERATION) ∧
    (∃ r, (a.operator_mul elided b).outcome = .ok r ∧
      r.get_function = if elided then TFunction.PRODUCT else TFunction.NO_OPERATION) ∧
    (∃ r, (a.operator_div elided b).outcome = .ok r ∧
      r.get_function = if elided then TFunction.DIVISION else TFunction.NO_OPERATION) := by
  rw [operator_add_of_eq elided a b h, operator_sub_of_eq elided a b h,
    operator_mul_of_eq elided a b h, operator_div_of_eq elided a b h]
  cases elided <;> exact ⟨⟨_, rfl, rfl⟩, ⟨_, rfl, rfl⟩, ⟨_, rfl, rfl⟩, ⟨_, rfl, rfl⟩⟩

end Arithmetic

/-- The number of elements of a constant tensor. -/
theorem length_constant_tensor {T : Type} (n : Nat) (x : T) :
    (constant_tensor n x).value.length = n :=
  List.length_replicate n x

/-- The scenario of `main.cpp`: `[1,2,3,4] - [6,7,8,9]` returns `[-5,-5,-5,-5]` and
`[9,8,7,6] * [6,7,8,9]` returns `[54,56,56,54]`, elementwise as `add_sub_mul_elementwise`
states. -/
theorem add_sub_mul_elementwise_witness :
    tensor1.value.length = tensor2.value.length ∧ tensor1.value.length ≤ 2^31 ∧
    (∃ r, (tensor1.operator_sub true tensor2).outcome = .ok r ∧
      r.value.length = tensor1.value.length ∧
      ∀ (i : Nat) (x y : F32), tensor1.value[i]? = some x → tensor2.value[i]? = some y →
        r.value[i]? = some (SupportedType.sub x y)) ∧
    (tensor1.operator_sub true tensor2).outcome = .ok
      ⟨[F32.ofInt (-5), F32.ofInt (-5), F32.ofInt (-5), F32.ofInt (-5)], TFunction.SUBSTRACTION⟩ ∧
    (tensor3.operator_mul true tensor2).outcome = .ok
      ⟨[F32.ofNat 54, F32.ofNat 56, F32.ofNat 56, F32.ofNat 54], TFunction.PRODUCT⟩ ∧
    (tensor1.operator_add true tensor2).outcome = .ok
      ⟨[F32.ofNat 7, F32.ofNat 9, F32.ofNat 11, F32.ofNat 13], TFunction.ADDITION⟩ :=
  ⟨by decide, by decide,
    (add_sub_mul_elementwise true tensor1 tensor2 (by decide) (by decide)).2.1, rfl, rfl, rfl⟩

/-- The scenario `[1,0,1] / [1,0,1]`: the result is `[1, min(), 1]`, elementwise as
`div_elementwise` states. -/
theorem div_elementwise_witness :
    tensor101.value.length = tensor101.value.length ∧ tensor101.value.length ≤ 2^31 ∧
    (∃ r, (tensor101.operator_div true tensor101).outcome = .ok r ∧
      r.value.length = tensor101.value.length ∧
      ∀ (i : Nat) (x y : F32), tensor101.value[i]? = some x → tensor101.value[i]? = some y →
        (SupportedType.eq y SupportedType.zero = false →
          r.value[i]? = some (SupportedType.div x y)) ∧
        (SupportedType.eq y SupportedType.zero = true →
          r.value[i]? = some SupportedType.numeric_limits_min)) ∧
    (tensor101.operator_div true tensor101).outcome = .ok
      ⟨[F32.ofNat 1, F32.numeric_limits_min, F32.ofNat 1], TFunction.DIVISION⟩ :=
  ⟨rfl, by decide, div_elementwise true tensor101 tensor101 rfl (by decide), rfl⟩

/-- C1: past the range of the `int` loop counter the operators return a short tensor.
For `a` and `b` holding 2^31 + 1 elements each, `a + b`, `a - b` and `a * b` return a
tensor of 2^31 elements, whichever way the result is returned: the number of elements
is not that of `a`, and the last position of `a` and `b` has no element in the result. -/
theorem add_sub_mul_short_past_int_max :
    (constant_tensor (2^31 + 1) (F32.ofNat 1)).value.length = 2^31 + 1 ∧
    (constant_tensor (2^31 + 1) (F32.ofNat 2)).value.length = 2^31 + 1 ∧
    (∀ elided : Bool,
      (∃ r, ((constant_tensor (2^31 + 1) (F32.ofNat 1)).operator_add elided
          (constant_tensor (2^31 + 1) (F32.ofNat 2))).outcome = .ok r ∧
        r.value.length = 2^31 ∧ r.value[2^31]? = none) ∧
      (∃ r, ((constant_tensor (2^31 + 1) (F32.ofNat 1)).operator_sub elided
          (constant_tensor (2^31 + 1) (F32.ofNat 2))).outcome = .ok r ∧
        r.value.length = 2^31 ∧ r.value[2^31]? = none) ∧
      (∃ r, ((constant_tensor (2^31 + 1) (F32.ofNat 1)).operator_mul elided
          (constant_tensor (2^31 + 1) (F32.ofNat 2))).outcome = .ok r ∧
        r.value.length = 2^31 ∧ r.value[2^31]? = none)) := by
  have h1 := length_constant_tensor (2^31 + 1) (F32.ofNat 1)
  have h2 := length_constant_tensor (2^31 + 1) (F32.ofNat 2)
  refine ⟨h1, h2, fun elided => ?_⟩
  obtain ⟨⟨r1, e1, l1⟩, ⟨r2, e2, l2⟩, ⟨r3, e3, l3⟩, _⟩ :=
    operators_short_past_range elided (constant_tensor (2^31 + 1) (F32.ofNat 1))
      (constant_tensor (2^31 + 1) (F32.ofNat 2)) (h1.trans h2.symm)
      (by rw [h1]; omega) (by rw [h1]; omega)
  exact ⟨⟨r1, e1, l1, List.getElem?_eq_none (Nat.le_of_eq l1)⟩,
    ⟨r2, e2, l2, List.getElem?_eq_none (Nat.le_of_eq l2)⟩,
    ⟨r3, e3, l3, List.getElem?_eq_none (Nat.le_of_eq l3)⟩⟩

/-- C2: past the range of the `int` loop counter `operator/` returns a short tensor.
For `a` and `b` holding 2^31 + 1 elements each, `a / b` returns a tensor of 2^31
elements, whichever way the result is returned: the last position of `a` and `b` has
neither a quotient nor the sentinel in the result. -/
theorem div_short_past_int_max :
    (constant_tensor (2^31 + 1) (F32.ofNat 1)).value.length = 2^31 + 1 ∧
    (constant_tensor (2^31 + 1) (F32.ofNat 2)).value.length = 2^31 + 1 ∧
    (∀ elided : Bool,
      ∃ r, ((constant_tensor (2^31 + 1) (F32.ofNat 1)).operator_div elided
          (constant_tensor (2^31 + 1) (F32.ofNat 2))).outcome = .ok r ∧
        r.value.length = 2^31 ∧ r.value[2^31]? = none) := by
  have h1 := length_constant_tensor (2^31 + 1) (F32.ofNat 1)
  have h2 := length_constant_tensor (2^31 + 1) (F32.ofNat 2)
  refine ⟨h1, h2, fun elided => ?_⟩
  obtain ⟨_, _, _, ⟨r, e, l⟩⟩ :=
    operators_short_past_range elided (constant_tensor (2^31 + 1) (F32.ofNat 1))
      (constant_tensor (2^31 + 1) (F32.ofNat 2)) (h1.trans h2.symm)
      (by rw [h1]; omega) (by rw [h1]; omega)
  exact ⟨r, e, l, List.getElem?_eq_none (Nat.le_of_eq l)⟩

/-- A one-element tensor against a three-element one: every operator throws, on either
side; and `[1,0,1] / [1,0,1]`, whose divisor holds a zero, returns. -/
theorem throws_iff_lengths_differ_witness :
    (Tensor.ofScalar (F32.ofNat 1)).value.length = 1 ∧ tensor123.value.length ≠ 1 ∧
    ((∃ e, ((Tensor.ofScalar (F32.ofNat 1)).operator_add true tensor123).outcome = .error e) ∧
      (∃ e, (tensor123.operator_add true (Tensor.ofScalar (F32.ofNat 1))).outcome = .error e) ∧
      (∃ e, ((Tensor.ofScalar (F32.ofNat 1)).operator_sub true tensor123).outcome = .error e) ∧
      (∃ e, (tensor123.operator_sub true (Tensor.ofScalar (F32.ofNat 1))).outcome = .error e) ∧
      (∃ e, ((Tensor.ofScalar (F32.ofNat 1)).operator_mul true tensor123).outcome = .error e) ∧
      (∃ e, (tensor123.operator_mul true (Tensor.ofScalar (F32.ofNat 1))).outcome = .error e) ∧
      (∃ e, ((Tensor.ofScalar (F32.ofNat 1)).operator_div true tensor123).outcome = .error e) ∧
      (∃ e, (tensor123.operator_div true (Tensor.ofScalar (F32.ofNat 1))).outcome = .error e)) ∧
    tensor101.value.length = tensor101.value.length ∧
    (∃ r, (tensor101.operator_div true tensor101).outcome = .ok r) ∧
    (∃ r, (tensor101.operator_div false tensor101).outcome = .ok r) :=
  ⟨by decide, by decide,
    (throws_iff_lengths_differ true (Tensor.ofScalar (F32.ofNat 1)) tensor123).2.2.2.2.1
      (by decide) (by decide),
    rfl, (throws_iff_lengths_differ true tensor101 tensor101).2.2.2.2.2 rfl,
    (throws_iff_lengths_differ false tensor101 tensor101).2.2.2.2.2 rfl⟩

/-- C4: the tag of the operator does not survive a return through the move
constructor.  On `[1,2,3,4]` and `[6,7,8,9]`, when the caller's tensor is
move-constructed from the local result, `a + b`, `a - b`, `a * b` and `a / b` hand the
caller a tensor tagged `NO_OPERATION`; the tag is `ADDITION`, `SUBSTRACTION`, `PRODUCT`,
`DIVISION` only when the return is elided. -/
theorem result_function_lost_by_move :
    tensor1.value.length = tensor2.value.length ∧
    (tensor1.operator_add false tensor2).outcome = .ok
      ⟨[F32.ofNat 7, F32.ofNat 9, F32.ofNat 11, F32.ofNat 13], TFunction.NO_OPERATION⟩ ∧
    (tensor1.operator_sub false tensor2).outcome = .ok
      ⟨[F32.ofInt (-5), F32.ofInt (-5), F32.ofInt (-5), F32.ofInt (-5)], TFunction.NO_OPERATION⟩ ∧
    (tensor1.operator_mul false tensor2).outcome = .ok
      ⟨[F32.ofNat 6, F32.ofNat 14, F32.ofNat 24, F32.ofNat 36], TFunction.NO_OPERATION⟩ ∧
    (∃ r, (tensor1.operator_div false tensor2).outcome = .ok r ∧
      r.get_function = TFunction.NO_OPERATION) ∧
    (tensor1.operator_add true tensor2).outcome = .ok
      ⟨[F32.ofNat 7, F32.ofNat 9, F32.ofNat 11, F32.ofNat 13], TFunction.ADDITION⟩ ∧
    (tensor1.operator_sub true tensor2).outcome = .ok
      ⟨[F32.ofInt (-5), F32.ofInt (-5), F32.ofInt (-5), F32.ofInt (-5)], TFunction.SUBSTRACTION⟩ ∧
    (tensor1.operator_mul true tensor2).outcome = .ok
      ⟨[F32.ofNat 6, F32.ofNat 14, F32.ofNat 24, F32.ofNat 36], TFunction.PRODUCT⟩ ∧
    (∃ r, (tensor1.operator_div true tensor2).outcome = .ok r ∧
      r.get_function = TFunction.DIVISION) :=
  ⟨by decide, rfl, rfl, rfl,
    (result_function_of_return false tensor1 tensor2 (by decide)).2.2.2,
    rfl, rfl, rfl, (result_function_of_return true tensor1 tensor2 (by decide)).2.2.2⟩

/-! ## The zero-divisor sentinel -/

/-- C5: on `float` the element stored for a zero divisor is not the least finite
value of the type.  `[1] / [0]` returns `[std::numeric_limits<float>::min()]`, the
positive value 2^-126: zero, the finite value -1 and `lowest()` are all smaller. -/
theorem div_sentinel_is_positive :
    ((Tensor.ofScalar (F32.ofNat 1)).operator_div true (Tensor.ofScalar (F32.ofNat 0))).outcome
      = .ok ⟨[F32.numeric_limits_min], TFunction.DIVISION⟩ ∧
    ((Tensor.ofScalar (F32.ofNat 1)).operator_div false (Tensor.ofScalar (F32.ofNat 0))).outcome
      = .ok ⟨[F32.numeric_limits_min], TFunction.NO_OPERATION⟩ ∧
    (SupportedType.numeric_limits_min : F32) = F32.fin false ⟨0x00800000, by decide⟩ ∧
    F32.lt (F32.ofNat 0) SupportedType.numeric_limits_min = true ∧
    F32.isFinite (F32.ofInt (-1)) = true ∧
    F32.lt (F32.ofInt (-1)) SupportedType.numeric_limits_min = true ∧
    F32.isFinite F32.numeric_limits_lowest = true ∧
    F32.lt F32.numeric_limits_lowest SupportedType.numeric_limits_min = true :=
  ⟨rfl, rfl, rfl, by decide, by decide, by decide, by decide, by decide⟩

/-! ## The message of the exception -/

section Message

variable {T : Type} [SupportedType T]

/-- C6: when the operands hold `n` and `m` elements with `n ≠ m`, the exception each
operator throws carries the message
`Tensor a's shape (n) is different than Tensor b's shape (m). Both Tensors should have the same shape.`:
it contains the decimal digits of `n` and, after them, those of `m`. -/
theorem message_holds_both_lengths (elided : Bool) (a b : Tensor T)
    (h : a.value.length ≠ b.value.length) :
    (∃ e, (a.operator_add elided b).outcome = .error e ∧ ∃ p q r : String,
      e.what = p ++ Nat.repr a.value.length ++ q ++ Nat.repr b.value.length ++ r) ∧
    (∃ e, (a.operator_sub elided b).outcome = .error e ∧ ∃ p q r : String,
      e.what = p ++ Nat.repr a.value.length ++ q ++ Nat.repr b.value.length ++ r) ∧
    (∃ e, (a.operator_mul elided b).outcome = .error e ∧ ∃ p q r : String,
      e.what = p ++ Nat.repr a.value.length ++ q ++ Nat.repr b.value.length ++ r) ∧
    (∃ e, (a.operator_div elided b).outcome = .error e ∧ ∃ p q r : String,
      e.what = p ++ Nat.repr a.value.length ++ q ++ Nat.repr b.value.length ++ r) := by
  rw [operator_add_of_ne elided a b h, operator_sub_of_ne elided a b h,
    operator_mul_of_ne elided a b h, operator_div_of_ne elided a b h]
  exact ⟨⟨_, rfl, _, _, _, rfl⟩, ⟨_, rfl, _, _, _, rfl⟩, ⟨_, rfl, _, _, _, rfl⟩,
    ⟨_, rfl, _, _, _, rfl⟩⟩

end Message

/-- The scenario of lengths 3 and 2: every operator throws the message with `3` first
and `2` second. -/
theorem message_holds_both_lengths_witness :
    tensor123.value.length ≠ tensor12.value.length ∧
    (∃ e, (tensor123.operator_add true tensor12).outcome = .error e ∧ ∃ p q r : String,
      e.what = p ++ Nat.repr tensor123.value.length ++ q ++ Nat.repr tensor12.value.length ++ r) ∧
    Nat.repr tensor123.value.length = "3" ∧ Nat.repr tensor12.value.length = "2" ∧
    (tensor123.operator_add true tensor12).outcome = .error
      ⟨"Tensor a's shape (3) is different than Tensor b's shape (2). Both Tensors should have the same shape."⟩ ∧
    (tensor123.operator_sub true tensor12).outcome = .error
      ⟨"Tensor a's shape (3) is different than Tensor b's shape (2). Both Tensors should have the same shape."⟩ ∧
    (tensor123.operator_mul true tensor12).outcome = .error
      ⟨"Tensor a's shape (3) is different than Tensor b's shape (2). Both Tensors should have the same shape."⟩ ∧
    (tensor123.operator_div true tensor12).outcome = .error
      ⟨"Tensor a's shape (3) is different than Tensor b's shape (2). Both Tensors should have the same shape."⟩ ∧
    (tensor123.operator_add false tensor12).outcome = .error
      ⟨"Tensor a's shape (3) is different than Tensor b's shape (2). Both Tensors should have the same shape."⟩ :=
  ⟨by decide, (message_holds_both_lengths true tensor123 tensor12 (by decide)).1,
    by decide, by decide, rfl, rfl, rfl, rfl, rfl⟩

/-! ## The math functions -/

section Math

variable {T : Type} [SupportedType T]

/-- The loop of `sin` and `exp` leaves `tensor` and `result` alone and replaces the
elements of `tensor_values` at the subscripts it visits. -/
theorem forLoop_set (f : T → T) (tensor result : Tensor T) :
    ∀ (fuel i : Nat) (values : List T),
      forLoop (fun (st : UnaryScope T) => st.tensor_values.length)
        (fun i (st : UnaryScope T) =>
          { st with tensor_values := st.tensor_values.set i (f (index st.tensor_values i)) })
        fuel i { tensor := tensor, result := result, tensor_values := values }
      = { tensor := tensor, result := result, tensor_values := replaced f fuel i values } := by
  intro fuel
  induction fuel with
  | zero => intro i values; rfl
  | succ fuel ih =>
    intro i values
    by_cases h : to_size_t i < values.length
    · simp only [forLoop, replaced, h, if_true]
      rw [ih]
    · simp only [forLoop, replaced, h, if_false]

/-- The loop of `sin` and `exp` on a vector of at most `2^64 - 2^31` elements, entered
at the counter `pre.length` with the elements `pre` already replaced: it replaces the
elements `post`, which reach up to the end of the vector and not beyond the subscript
`2^31`, and leaves the elements `rest` after them as they are. -/
theorem replaced_eq (f : T → T) :
    ∀ (post pre rest : List T) (fuel : Nat),
      (pre ++ post ++ rest).length ≤ 2^64 - 2^31 →
      pre.length + post.length = min (pre ++ post ++ rest).length (2^31) →
      post.length ≤ fuel →
      replaced f fuel pre.length (pre ++ post ++ rest) = pre ++ post.map f ++ rest := by
  intro post
  induction post with
  | nil =>
    intro pre rest fuel hn hm _
    cases fuel with
    | zero => rfl
    | succ fuel =>
      have hexit := to_size_t_at_exit hn
      rw [← hm, List.length_nil, Nat.add_zero] at hexit
      simp only [replaced, if_neg hexit, List.map_nil]
  | cons x xs ih =>
    intro pre rest fuel hn hm hf
    cases fuel with
    | zero => simp at hf
    | succ fuel =>
      have hlen : (pre ++ x :: xs ++ rest).length = (pre ++ [f x] ++ xs ++ rest).length := by
        simp only [List.length_append, List.length_cons, List.length_nil]
        omega
      have hpre : pre.length < min (pre ++ x :: xs ++ rest).length (2^31) := by
        rw [← hm, List.length_cons]; omega
      have hi31 : pre.length < 2^31 := by omega
      have hin : pre.length < (pre ++ x :: xs ++ rest).length := by omega
      have hidx : index (pre ++ x :: xs ++ rest) pre.length = x :=
        index_eq_of_getElem? (by
          rw [List.append_assoc, List.getElem?_append_right (le_refl _)]; simp)
      have hset : (pre ++ x :: xs ++ rest).set pre.length (f x) = pre ++ [f x] ++ xs ++ rest := by
        simp
      have hstep := ih (pre ++ [f x]) rest fuel (by rw [← hlen]; exact hn)
        (by rw [← hlen, ← hm]; simp only [List.length_append, List.length_cons,
              List.length_nil]; omega)
        (by simpa using hf)
      have hpl : (pre ++ [f x]).length = pre.length + 1 := by simp
      rw [hpl] at hstep
      simp only [replaced, to_size_t_of_lt hi31, increment_of_lt hi31, hin, if_true, hidx, hset]
      rw [hstep]
      simp

/-- Within the range of the counter, up to 2^31 elements, the loop of `sin` and `exp`
replaces every element. -/
theorem replaced_of_le (f : T → T) (values : List T) (hle : values.length ≤ 2^31) :
    replaced f 4294967296 0 values = values.map f := by
  have h := replaced_eq f values [] [] 4294967296
    (by simp only [List.nil_append, List.append_nil]; omega)
    (by simp only [List.nil_append, List.append_nil, List.length_nil]; omega)
    (by omega)
  simpa using h

/-- Past the range of the counter the loop of `sin` and `exp` replaces the first 2^31
elements and leaves the others as they are. -/
theorem replaced_past (f : T → T) (values : List T) (hlt : 2^31 < values.length)
    (hle : values.length ≤ 2^64 - 2^31) :
    replaced f 4294967296 0 values = (values.take (2^31)).map f ++ values.drop (2^31) := by
  have hlen : ([] ++ values.take (2^31) ++ values.drop (2^31)).length = values.length := by
    rw [List.nil_append, List.take_append_drop]
  have h := replaced_eq f (values.take (2^31)) [] (values.drop (2^31)) 4294967296
    (by rw [hlen]; exact hle)
    (by rw [hlen, List.length_nil, List.length_take]; omega)
    (by rw [List.length_take]; omega)
  rw [List.nil_append, List.take_append_drop] at h
  simpa using h

/-- Past the range of the counter the element at the subscript `2^31` is left as it
is. -/
theorem replaced_getElem?_past (f : T → T) (values : List T) (hlt : 2^31 < values.length)
    (hle : values.length ≤ 2^64 - 2^31) :
    (replaced f 4294967296 0 values)[2^31]? = values[2^31]? := by
  have hl : ((values.take (2^31)).map f).length = 2^31 := by
    rw [List.length_map, List.length_take]; omega
  rw [replaced_past f values hlt hle, List.getElem?_append_right (Nat.le_of_eq hl), hl,
    Nat.sub_self, List.getElem?_drop, Nat.add_zero]

theorem sin_eq (elided : Bool) (std_sin : T → T) (t : Tensor T) :
    MLNet.sin elided std_sin t = { tensor := t, returned := Tensor.return_local elided ⟨replaced std_sin 4294967296 0 t.value, TFunction.SIN⟩ } := by
  simp only [MLNet.sin, Tensor.get_value, Tensor.copy, Tensor.set_value, Tensor.set_function,
    forLoop_set]

theorem exp_eq (elided : Bool) (std_exp : T → T) (t : Tensor T) :
    MLNet.exp elided std_exp t = { tensor := t, returned := Tensor.return_local elided ⟨replaced std_exp 4294967296 0 t.value, TFunction.EXP⟩ } := by
  simp only [MLNet.exp, Tensor.get_value, Tensor.copy, Tensor.set_value, Tensor.set_function,
    forLoop_set]

/-- Within the range of the loop counter: for a tensor `t` of at most 2^31 elements
`sin(t)` and `exp(t)` return a tensor with as many elements as `t` whose element at
every position is the scalar sine, respectively exponential, of the element of `t`
there; and where the scalar sine maps zero to zero, `sin([0])` is `[0]`. -/
theorem sin_exp_elementwise (elided : Bool) (std_sin std_exp : T → T) (t : Tensor T)
    (hle : t.value.length ≤ 2^31) :
    (MLNet.sin elided std_sin t).returned.value.length = t.value.length ∧
    (∀ (i : Nat) (x : T), t.value[i]? = some x →
      (MLNet.sin elided std_sin t).returned.value[i]? = some (std_sin x)) ∧
    (MLNet.exp elided std_exp t).returned.value.length = t.value.length ∧
    (∀ (i : Nat) (x : T), t.value[i]? = some x →
      (MLNet.exp elided std_exp t).returned.value[i]? = some (std_exp x)) ∧
    (std_sin SupportedType.zero = SupportedType.zero →
      (MLNet.sin elided std_sin (Tensor.ofScalar SupportedType.zero)).returned.get_value
        = [SupportedType.zero]) := by
  have h1 : (Tensor.ofScalar (SupportedType.zero : T)).value.length ≤ 2^31 := by
    simp [Tensor.ofScalar]
  rw [sin_eq, exp_eq, sin_eq]
  simp only [return_local_value, Tensor.get_value, replaced_of_le _ _ hle,
    replaced_of_le _ _ h1]
  refine ⟨by simp, ?_, by simp, ?_, ?_⟩
  · intro i x hx; simp [hx]
  · intro i x hx; simp [hx]
  · intro h0; simp [Tensor.ofScalar, h0]

/-- The argument and the tag of `sin(t)` and `exp(t)`: `t` keeps its value and its
tag, and the caller receives the tag `SIN`, respectively `EXP`, when the return of the
local is elided, and `NO_OPERATION` when the caller's tensor is move-constructed from
it. -/
theorem sin_exp_keep_argument (elided : Bool) (std_sin std_exp : T → T) (t : Tensor T) :
    (MLNet.sin elided std_sin t).tensor.get_value = t.get_value ∧
    (MLNet.sin elided std_sin t).tensor.get_function = t.get_function ∧
    (MLNet.sin elided std_sin t).returned.get_function
      = (if elided then TFunction.SIN else TFunction.NO_OPERATION) ∧
    (MLNet.exp elided std_exp t).tensor.get_value = t.get_value ∧
    (MLNet.exp elided std_exp t).tensor.get_function = t.get_function ∧
    (MLNet.exp elided std_exp t).returned.get_function
      = (if elided then TFunction.EXP else TFunction.NO_OPERATION) := by
  rw [sin_eq, exp_eq]
  cases elided <;> exact ⟨rfl, rfl, rfl, rfl, rfl, rfl⟩

end Math

/-- On `[1,0,1]`, with polynomial stand-ins for the library functions: `sin` and `exp`
act on the element at position 1, and `sin([0])` is `[0]`. -/
theorem sin_exp_elementwise_witness :
    tensor101.value.length ≤ 2^31 ∧
    tensor101.value[1]? = some (F32.ofNat 0) ∧
    (MLNet.sin true F32.sin_maclaurin tensor101).returned.value[1]?
      = some (F32.sin_maclaurin (F32.ofNat 0)) ∧
    (MLNet.exp true F32.exp_maclaurin tensor101).returned.value[1]?
      = some (F32.exp_maclaurin (F32.ofNat 0)) ∧
    F32.sin_maclaurin SupportedType.zero = SupportedType.zero ∧
    (MLNet.sin true F32.sin_maclaurin (Tensor.ofScalar SupportedType.zero)).returned.get_value
      = [SupportedType.zero] ∧
    (MLNet.sin true F32.sin_maclaurin tensor101).returned.value.length = 3 :=
  ⟨by decide, rfl,
    (sin_exp_elementwise true F32.sin_maclaurin F32.exp_maclaurin tensor101 (by decide)).2.1
      1 (F32.ofNat 0) rfl,
    (sin_exp_elementwise true F32.sin_maclaurin F32.exp_maclaurin tensor101 (by decide)).2.2.2.1
      1 (F32.ofNat 0) rfl,
    by decide,
    (sin_exp_elementwise true F32.sin_maclaurin F32.exp_maclaurin tensor101 (by decide)).2.2.2.2
      (by decide),
    (sin_exp_elementwise true F32.sin_maclaurin F32.exp_maclaurin tensor101 (by decide)).1⟩

/-- C7: past the range of the `int` loop counter `sin` and `exp` leave elements as they
are.  On a tensor of 2^31 + 1 elements `1` the tensor returned holds the scalar image
of `1` at position 0 and the element `1` itself at the last position 2^31, whatever the
scalar function and whichever way the result is returned; a sine or an exponential
does not map `1` to itself. -/
theorem sin_exp_skip_past_int_max :
    (constant_tensor (2^31 + 1) (F32.ofNat 1)).value.length = 2^31 + 1 ∧
    (constant_tensor (2^31 + 1) (F32.ofNat 1)).value[2^31]? = some (F32.ofNat 1) ∧
    (∀ (elided : Bool) (std_sin std_exp : F32 → F32),
      (MLNet.sin elided std_sin (constant_tensor (2^31 + 1) (F32.ofNat 1))).returned.value[2^31]?
        = some (F32.ofNat 1) ∧
      (MLNet.exp elided std_exp (constant_tensor (2^31 + 1) (F32.ofNat 1))).returned.value[2^31]?
        = some (F32.ofNat 1)) ∧
    F32.sin_maclaurin (F32.ofNat 1) ≠ F32.ofNat 1 ∧
    F32.exp_maclaurin (F32.ofNat 1) ≠ F32.ofNat 1 := by
  have h1 := length_constant_tensor (2^31 + 1) (F32.ofNat 1)
  have hlast : (constant_tensor (2^31 + 1) (F32.ofNat 1)).value[2^31]? = some (F32.ofNat 1) := by
    show (List.replicate (2^31 + 1) (F32.ofNat 1))[2^31]? = some (F32.ofNat 1)
    rw [List.getElem?_replicate, if_pos (by omega)]
  refine ⟨h1, hlast, fun elided std_sin std_exp => ?_, by decide, by decide⟩
  rw [sin_eq, exp_eq]
  simp only [return_local_value]
  rw [replaced_getElem?_past _ _ (by rw [h1]; omega) (by rw [h1]; omega),
    replaced_getElem?_past _ _ (by rw [h1]; omega) (by rw [h1]; omega)]
  exact ⟨hlast, hlast⟩

/-- C8: the tag of `sin` and of `exp` does not survive a return through the move
constructor.  On `[1,0,1]`, when the caller's tensor is move-constructed from the local
result, `sin` and `exp` hand the caller a tensor tagged `NO_OPERATION`; the tag is
`SIN`, respectively `EXP`, only when the return is elided.  The argument keeps its
value and its tag either way. -/
theorem sin_exp_function_lost_by_move :
    (MLNet.sin false F32.sin_maclaurin tensor101).returned.get_function
      = TFunction.NO_OPERATION ∧
    (MLNet.exp false F32.exp_maclaurin tensor101).returned.get_function
      = TFunction.NO_OPERATION ∧
    (MLNet.sin true F32.sin_maclaurin tensor101).returned.get_function = TFunction.SIN ∧
    (MLNet.exp true F32.exp_maclaurin tensor101).returned.get_function = TFunction.EXP ∧
    (MLNet.sin false F32.sin_maclaurin tensor101).tensor = tensor101 ∧
    (MLNet.exp false F32.exp_maclaurin tensor101).tensor = tensor101 ∧
    (∀ (std_sin std_exp : F32 → F32) (t : Tensor F32),
      (MLNet.sin false std_sin t).returned.get_function = TFunction.NO_OPERATION ∧
      (MLNet.exp false std_exp t).returned.get_function = TFunction.NO_OPERATION) :=
  ⟨rfl, rfl, rfl, rfl, rfl, rfl, fun std_sin std_exp t =>
    ⟨(sin_exp_keep_argument false std_sin std_exp t).2.2.1,
      (sin_exp_keep_argument false std_sin std_exp t).2.2.2.2.2⟩⟩

/-! ## Construction -/

section Construction

variable {T : Type}

/-- C9: the constructors from nothing, from a scalar and from a sequence give the tag
`NO_OPERATION`; `Tensor()` holds the empty sequence, `Tensor(v)` the one-element
sequence `[v]`, and the tensor built from a sequence `s`, copied or moved in, returns
exactly `s` from `get_value`. -/
theorem literal_construction (v : T) (s : List T) :
    (Tensor.new : Tensor T).get_value = [] ∧
    (Tensor.new : Tensor T).get_function = TFunction.NO_OPERATION ∧
    (Tensor.ofScalar v).get_value = [v] ∧
    (Tensor.ofScalar v).get_function = TFunction.NO_OPERATION ∧
    (Tensor.ofVector s).get_value = s ∧
    (Tensor.ofVector s).get_function = TFunction.NO_OPERATION ∧
    (Tensor.ofVectorMove s).1.get_value = s ∧
    (Tensor.ofVectorMove s).1.get_function = TFunction.NO_OPERATION :=
  ⟨rfl, rfl, rfl, rfl, rfl, rfl, rfl, rfl⟩

/-- C10: the tensor copy-constructed or move-constructed from `t` holds the element
sequence `t` held and carries `NO_OPERATION`, whatever tag `t` carries, also one put
there by `set_function`. -/
theorem copy_move_construction (t : Tensor T) (f : TFunction) :
    (Tensor.copy t).get_value = t.get_value ∧
    (Tensor.copy t).get_function = TFunction.NO_OPERATION ∧
    (Tensor.move t).1.get_value = t.get_value ∧
    (Tensor.move t).1.get_function = TFunction.NO_OPERATION ∧
    (Tensor.copy (t.set_function f)).get_value = t.get_value ∧
    (Tensor.copy (t.set_function f)).get_function = TFunction.NO_OPERATION ∧
    (Tensor.move (t.set_function f)).1.get_value = t.get_value ∧
    (Tensor.move (t.set_function f)).1.get_function = TFunction.NO_OPERATION :=
  ⟨rfl, rfl, rfl, rfl, rfl, rfl, rfl, rfl⟩

end Construction

/-! ## The operands after an operator call -/

/-- What a binary operator returns or throws is determined by the element sequences
of its operands. -/
theorem outcome_congr {T : Type} [SupportedType T] (op : Tensor T → Tensor T → BinaryCall T)
    (g : T → T → T) (f : TFunction) (elided : Bool)
    (hok : ∀ x y : Tensor T, x.value.length = y.value.length →
      (op x y).outcome = .ok (Tensor.return_local elided ⟨combined g x.value y.value, f⟩))
    (herr : ∀ x y : Tensor T, x.value.length ≠ y.value.length →
      (op x y).outcome = .error ⟨mismatch_message x.value.length y.value.length⟩)
    {a a' b b' : Tensor T} (ha : a.value = a'.value) (hb : b.value = b'.value) :
    (op a b).outcome = (op a' b').outcome := by
  by_cases h : a.value.length = b.value.length
  · have h' : a'.value.length = b'.value.length := by rw [← ha, ← hb]; exact h
    rw [hok a b h, hok a' b' h', ha, hb]
  · have h' : a'.value.length ≠ b'.value.length := by rw [← ha, ← hb]; exact h
    rw [herr a b h, herr a' b' h', ha, hb]

section Frame

variable {T : Type} [SupportedType T]

/-- C13: after `a + b`, `a - b`, `a * b` and `a / b`, whether the call returns or
throws, `a` and `b` hold the element sequence and the tag they held before. -/
theorem operators_keep_operands (elided : Bool) (a b : Tensor T) :
    ((a.operator_add elided b).self.get_value = a.get_value ∧
      (a.operator_add elided b).self.get_function = a.get_function ∧
      (a.operator_add elided b).other.get_value = b.get_value ∧
      (a.operator_add elided b).other.get_function = b.get_function) ∧
    ((a.operator_sub elided b).self.get_value = a.get_value ∧
      (a.operator_sub elided b).self.get_function = a.get_function ∧
      (a.operator_sub elided b).other.get_value = b.get_value ∧
      (a.operator_sub elided b).other.get_function = b.get_function) ∧
    ((a.operator_mul elided b).self.get_value = a.get_value ∧
      (a.operator_mul elided b).self.get_function = a.get_function ∧
      (a.operator_mul elided b).other.get_value = b.get_value ∧
      (a.operator_mul elided b).other.get_function = b.get_function) ∧
    ((a.operator_div elided b).self.get_value = a.get_value ∧
      (a.operator_div elided b).self.get_function = a.get_function ∧
      (a.operator_div elided b).other.get_value = b.get_value ∧
      (a.operator_div elided b).other.get_function = b.get_function) := by
  by_cases h : a.value.length = b.value.length
  · rw [operator_add_of_eq elided a b h, operator_sub_of_eq elided a b h,
      operator_mul_of_eq elided a b h, operator_div_of_eq elided a b h]
    exact ⟨⟨rfl, rfl, rfl, rfl⟩, ⟨rfl, rfl, rfl, rfl⟩, ⟨rfl, rfl, rfl, rfl⟩,
      ⟨rfl, rfl, rfl, rfl⟩⟩
  · rw [operator_add_of_ne elided a b h, operator_sub_of_ne elided a b h,
      operator_mul_of_ne elided a b h, operator_div_of_ne elided a b h]
    exact ⟨⟨rfl, rfl, rfl, rfl⟩, ⟨rfl, rfl, rfl, rfl⟩, ⟨rfl, rfl, rfl, rfl⟩,
      ⟨rfl, rfl, rfl, rfl⟩⟩

/-- C14: what an operator, `sin` or `exp` yields depends on the element sequences of
the operands only.  For `a`, `a'` with the same elements and `b`, `b'` with the same
elements, whatever their tags, `a OP b` and `a' OP b'` have the same outcome (the same
exception message, or tensors equal in value and tag), and `sin` and `exp` return the
same tensor for `a` and for `a'`. -/
theorem outcome_ignores_operand_tags (elided : Bool) (std_sin std_exp : T → T)
    (a a' b b' : Tensor T)
    (ha : a.get_value = a'.get_value) (hb : b.get_value = b'.get_value) :
    (a.operator_add elided b).outcome = (a'.operator_add elided b').outcome ∧
    (a.operator_sub elided b).outcome = (a'.operator_sub elided b').outcome ∧
    (a.operator_mul elided b).outcome = (a'.operator_mul elided b').outcome ∧
    (a.operator_div elided b).outcome = (a'.operator_div elided b').outcome ∧
    (MLNet.sin elided std_sin a).returned = (MLNet.sin elided std_sin a').returned ∧
    (MLNet.exp elided std_exp a).returned = (MLNet.exp elided std_exp a').returned := by
  have ha' : a.value = a'.value := ha
  refine ⟨?_, ?_, ?_, ?_, ?_, ?_⟩
  · exact outcome_congr (Tensor.operator_add elided) SupportedType.add TFunction.ADDITION elided
      (fun x y h => by rw [operator_add_of_eq elided x y h])
      (fun x y h => by rw [operator_add_of_ne elided x y h]) ha hb
  · exact outcome_congr (Tensor.operator_sub elided) SupportedType.sub TFunction.SUBSTRACTION
      elided (fun x y h => by rw [operator_sub_of_eq elided x y h])
      (fun x y h => by rw [operator_sub_of_ne elided x y h]) ha hb
  · exact outcome_congr (Tensor.operator_mul elided) SupportedType.mul TFunction.PRODUCT elided
      (fun x y h => by rw [operator_mul_of_eq elided x y h])
      (fun x y h => by rw [operator_mul_of_ne elided x y h]) ha hb
  · exact outcome_congr (Tensor.operator_div elided) quotient_or_sentinel TFunction.DIVISION
      elided (fun x y h => by rw [operator_div_of_eq elided x y h])
      (fun x y h => by rw [operator_div_of_ne elided x y h]) ha hb
  · rw [sin_eq, sin_eq, ha']
  · rw [exp_eq, exp_eq, ha']

end Frame

/-- The operands `[1,2,3,4]` and `[6,7,8,9]` under two different taggings, and the
mismatching pair of lengths 3 and 2 likewise: the outcomes agree. -/
theorem outcome_ignores_operand_tags_witness :
    (tensor1.set_function TFunction.SIN).get_value
      = (tensor1.set_function TFunction.PRODUCT).get_value ∧
    tensor2.get_value = (tensor2.set_function TFunction.EXP).get_value ∧
    (tensor1.set_function TFunction.SIN).get_function
      ≠ (tensor1.set_function TFunction.PRODUCT).get_function ∧
    (((tensor1.set_function TFunction.SIN).operator_add true tensor2).outcome
        = ((tensor1.set_function TFunction.PRODUCT).operator_add true
            (tensor2.set_function TFunction.EXP)).outcome ∧
      ((tensor1.set_function TFunction.SIN).operator_sub true tensor2).outcome
        = ((tensor1.set_function TFunction.PRODUCT).operator_sub true
            (tensor2.set_function TFunction.EXP)).outcome ∧
      ((tensor1.set_function TFunction.SIN).operator_mul true tensor2).outcome
        = ((tensor1.set_function TFunction.PRODUCT).operator_mul true
            (tensor2.set_function TFunction.EXP)).outcome ∧
      ((tensor1.set_function TFunction.SIN).operator_div true tensor2).outcome
        = ((tensor1.set_function TFunction.PRODUCT).operator_div true
            (tensor2.set_function TFunction.EXP)).outcome ∧
      (MLNet.sin true F32.sin_maclaurin (tensor1.set_function TFunction.SIN)).returned
        = (MLNet.sin true F32.sin_maclaurin (tensor1.set_function TFunction.PRODUCT)).returned ∧
      (MLNet.exp true F32.exp_maclaurin (tensor1.set_function TFunction.SIN)).returned
        = (MLNet.exp true F32.exp_maclaurin (tensor1.set_function TFunction.PRODUCT)).returned) ∧
    ((tensor123.set_function TFunction.SIN).operator_add true tensor12).outcome
      = (tensor123.operator_add true (tensor12.set_function TFunction.EXP)).outcome ∧
    ((tensor123.set_function TFunction.SIN).operator_add false tensor12).outcome
      = (tensor123.operator_add false (tensor12.set_function TFunction.EXP)).outcome ∧
    ((tensor123.set_function TFunction.SIN).operator_add true tensor12).outcome = .error
      ⟨"Tensor a's shape (3) is different than Tensor b's shape (2). Both Tensors should have the same shape."⟩ :=
  ⟨rfl, rfl, by decide,
    outcome_ignores_operand_tags true F32.sin_maclaurin F32.exp_maclaurin _ _ _ _ rfl rfl,
    (outcome_ignores_operand_tags true F32.sin_maclaurin F32.exp_maclaurin
      (tensor123.set_function TFunction.SIN) tensor123 tensor12
      (tensor12.set_function TFunction.EXP) rfl rfl).1,
    (outcome_ignores_operand_tags false F32.sin_maclaurin F32.exp_maclaurin
      (tensor123.set_function TFunction.SIN) tensor123 tensor12
      (tensor12.set_function TFunction.EXP) rfl rfl).1,
    rfl⟩

/-! ## Commutativity -/

/-- Addition on `float` is commutative on operands that are not both NaN. -/
theorem F32.add_comm_of_not_both_nan (x y : F32) (h : (x.isNaN && y.isNaN) = false) :
    F32.add x y = F32.add y x := by
  cases x with
  | nan s p =>
    cases y with
    | nan t q => simp [F32.isNaN] at h
    | inf t => rfl
    | fin t b => rfl
  | inf s =>
    cases y with
    | nan t q => rfl
    | inf t =>
      simp only [F32.add]
      by_cases h' : s = t
      · subst h'; rfl
      · rw [if_neg h', if_neg (fun e => h' e.symm)]
    | fin t b => rfl
  | fin s a =>
    cases y with
    | nan t q => rfl
    | inf t => rfl
    | fin t b =>
      simp only [F32.add]
      by_cases h' : s = t
      · subst h'
        rw [if_pos rfl, if_pos rfl, Nat.add_comm]
      · have h'' : ¬ t = s := fun e => h' e.symm
        rcases Nat.lt_trichotomy (F32.mag149 a.val) (F32.mag149 b.val) with hlt | heq | hgt
        · simp only [h', h'', hlt, Nat.lt_asymm hlt, if_true, if_false]
        · simp only [h', h'', heq, Nat.lt_irrefl, if_false]
        · simp only [h', h'', hgt, Nat.lt_asymm hgt, if_true, if_false]

/-- Multiplication on `float` is commutative on operands that are not both NaN. -/
theorem F32.mul_comm_of_not_both_nan (x y : F32) (h : (x.isNaN && y.isNaN) = false) :
    F32.mul x y = F32.mul y x := by
  cases x with
  | nan s p =>
    cases y with
    | nan t q => simp [F32.isNaN] at h
    | inf t => rfl
    | fin t b => rfl
  | inf s =>
    cases y with
    | nan t q => rfl
    | inf t => simp only [F32.mul, Bool.xor_comm]
    | fin t b => simp only [F32.mul, Bool.xor_comm]
  | fin s a =>
    cases y with
    | nan t q => rfl
    | inf t => simp only [F32.mul, Bool.xor_comm]
    | fin t b => simp only [F32.mul, Bool.xor_comm, Nat.mul_comm]

/-- Every subscript the loop visits is below the bound. -/
theorem mem_visited_lt (n : Nat) :
    ∀ (fuel i j : Nat), j ∈ visited n fuel i → j < n := by
  intro fuel
  induction fuel with
  | zero => intro i j hj; simp [visited] at hj
  | succ fuel ih =>
    intro i j hj
    by_cases h : to_size_t i < n
    · simp only [visited, h, if_true, List.mem_cons] at hj
      rcases hj with hj | hj
      · rw [hj]; exact h
      · exact ih _ _ hj
    · simp [visited, h] at hj

/-- The loop of a binary operator builds the same vector from the operands in either
order when the scalar operation commutes on the elements that share a position. -/
theorem combined_comm {T : Type} [SupportedType T] (g : T → T → T) (a b : List T)
    (hlen : a.length = b.length) (hpt : ∀ p ∈ List.zip a b, g p.1 p.2 = g p.2 p.1) :
    combined g a b = combined g b a := by
  unfold combined
  rw [← hlen]
  apply List.map_congr_left
  intro j hj
  have hja : j < a.length := mem_visited_lt _ _ _ _ hj
  have hjb : j < b.length := hlen ▸ hja
  have hz : j < (List.zip a b).length := by simp [List.length_zip, hja, hjb]
  have hmem : (a[j], b[j]) ∈ List.zip a b := by
    have := List.getElem_mem hz
    simpa [List.getElem_zip] using this
  have hia : index a j = a[j] := index_eq_of_getElem? (List.getElem?_eq_getElem hja)
  have hib : index b j = b[j] := index_eq_of_getElem? (List.getElem?_eq_getElem hjb)
  rw [hia, hib]
  exact hpt _ hmem

/-- C16: on tensors of `float` that hold a NaN at no common position, `a + b` and
`b + a` either both throw `UnmatchingTensorSizes` or both return tensors with the same
element sequence and the same tag, and so do `a * b` and `b * a`. -/
theorem add_mul_commute (elided : Bool) (a b : Tensor F32)
    (hnan : ∀ p ∈ List.zip a.value b.value, (p.1.isNaN && p.2.isNaN) = false) :
    (((∃ e, (a.operator_add elided b).outcome = .error e) ∧
        (∃ e, (b.operator_add elided a).outcome = .error e)) ∨
      (∃ r r', (a.operator_add elided b).outcome = .ok r ∧
        (b.operator_add elided a).outcome = .ok r' ∧
        r.get_value = r'.get_value ∧ r.get_function = r'.get_function)) ∧
    (((∃ e, (a.operator_mul elided b).outcome = .error e) ∧
        (∃ e, (b.operator_mul elided a).outcome = .error e)) ∨
      (∃ r r', (a.operator_mul elided b).outcome = .ok r ∧
        (b.operator_mul elided a).outcome = .ok r' ∧
        r.get_value = r'.get_value ∧ r.get_function = r'.get_function)) := by
  by_cases h : a.value.length = b.value.length
  · rw [operator_add_of_eq elided a b h, operator_add_of_eq elided b a h.symm,
      operator_mul_of_eq elided a b h, operator_mul_of_eq elided b a h.symm]
    have hadd : combined SupportedType.add a.value b.value
        = combined SupportedType.add b.value a.value :=
      combined_comm _ _ _ h (fun p hp => F32.add_comm_of_not_both_nan _ _ (hnan p hp))
    have hmul : combined SupportedType.mul a.value b.value
        = combined SupportedType.mul b.value a.value :=
      combined_comm _ _ _ h (fun p hp => F32.mul_comm_of_not_both_nan _ _ (hnan p hp))
    rw [hadd, hmul]
    exact ⟨Or.inr ⟨_, _, rfl, rfl, rfl, rfl⟩, Or.inr ⟨_, _, rfl, rfl, rfl, rfl⟩⟩
  · have h' : b.value.length ≠ a.value.length := fun e => h e.symm
    rw [operator_add_of_ne elided a b h, operator_add_of_ne elided b a h',
      operator_mul_of_ne elided a b h, operator_mul_of_ne elided b a h']
    exact ⟨Or.inl ⟨⟨_, rfl⟩, ⟨_, rfl⟩⟩, Or.inl ⟨⟨_, rfl⟩, ⟨_, rfl⟩⟩⟩

/-- The scenario `[1,2,3,4] + [6,7,8,9]` and `[1,2,3,4] * [6,7,8,9]`, which hold no NaN:
either order returns the same tensor; and a pair of lengths 3 and 2 throws in either
order. -/
theorem add_mul_commute_witness :
    (∀ p ∈ List.zip tensor1.value tensor2.value, (p.1.isNaN && p.2.isNaN) = false) ∧
    ((((∃ e, (tensor1.operator_add true tensor2).outcome = .error e) ∧
          (∃ e, (tensor2.operator_add true tensor1).outcome = .error e)) ∨
        (∃ r r', (tensor1.operator_add true tensor2).outcome = .ok r ∧
          (tensor2.operator_add true tensor1).outcome = .ok r' ∧
          r.get_value = r'.get_value ∧ r.get_function = r'.get_function)) ∧
      (((∃ e, (tensor1.operator_mul true tensor2).outcome = .error e) ∧
          (∃ e, (tensor2.operator_mul true tensor1).outcome = .error e)) ∨
        (∃ r r', (tensor1.operator_mul true tensor2).outcome = .ok r ∧
          (tensor2.operator_mul true tensor1).outcome = .ok r' ∧
          r.get_value = r'.get_value ∧ r.get_function = r'.get_function))) ∧
    (tensor1.operator_add true tensor2).outcome = .ok
      ⟨[F32.ofNat 7, F32.ofNat 9, F32.ofNat 11, F32.ofNat 13], TFunction.ADDITION⟩ ∧
    (tensor2.operator_add true tensor1).outcome = .ok
      ⟨[F32.ofNat 7, F32.ofNat 9, F32.ofNat 11, F32.ofNat 13], TFunction.ADDITION⟩ ∧
    (tensor1.operator_mul true tensor2).outcome = .ok
      ⟨[F32.ofNat 6, F32.ofNat 14, F32.ofNat 24, F32.ofNat 36], TFunction.PRODUCT⟩ ∧
    (tensor2.operator_mul true tensor1).outcome = .ok
      ⟨[F32.ofNat 6, F32.ofNat 14, F32.ofNat 24, F32.ofNat 36], TFunction.PRODUCT⟩ ∧
    (∃ e, (tensor123.operator_add true tensor12).outcome = .error e) ∧
    (∃ e, (tensor12.operator_add true tensor123).outcome = .error e) :=
  ⟨by decide, add_mul_commute true tensor1 tensor2 (by decide),
    rfl, rfl, rfl, rfl, ⟨_, rfl⟩, ⟨_, rfl⟩⟩

/-- The operands `[nan]` (`0x7FC00000`) and `[-nan]` (`0xFFC00000`): `a + b` returns
`[-nan]` and `b + a` returns `[nan]`, and likewise `a * b` and `b * a`; the two orders
return different element sequences, which also print differently, so addition and
multiplication of tensors do not commute for every pair of tensors. -/
theorem add_mul_differ_on_nan :
    (tensor_nan.operator_add true tensor_minus_nan).outcome
      = .ok ⟨[F32.nan true ⟨0x3FFFFF, by decide⟩], TFunction.ADDITION⟩ ∧
    (tensor_minus_nan.operator_add true tensor_nan).outcome
      = .ok ⟨[F32.nan false ⟨0x3FFFFF, by decide⟩], TFunction.ADDITION⟩ ∧
    (tensor_nan.operator_mul true tensor_minus_nan).outcome
      = .ok ⟨[F32.nan true ⟨0x3FFFFF, by decide⟩], TFunction.PRODUCT⟩ ∧
    (tensor_minus_nan.operator_mul true tensor_nan).outcome
      = .ok ⟨[F32.nan false ⟨0x3FFFFF, by decide⟩], TFunction.PRODUCT⟩ ∧
    Tensor.print F32.render "" ⟨[F32.nan true ⟨0x3FFFFF, by decide⟩], TFunction.ADDITION⟩
      = "[-nan ]" ∧
    Tensor.print F32.render "" ⟨[F32.nan false ⟨0x3FFFFF, by decide⟩], TFunction.ADDITION⟩
      = "[nan ]" ∧
    ¬ (∀ (elided : Bool) (a b : Tensor F32),
        ((∃ e, (a.operator_add elided b).outcome = .error e) ∧
          (∃ e, (b.operator_add elided a).outcome = .error e)) ∨
        (∃ r r', (a.operator_add elided b).outcome = .ok r ∧
          (b.operator_add elided a).outcome = .ok r' ∧
          r.get_value = r'.get_value ∧ r.get_function = r'.get_function)) ∧
    ¬ (∀ (elided : Bool) (a b : Tensor F32),
        ((∃ e, (a.operator_mul elided b).outcome = .error e) ∧
          (∃ e, (b.operator_mul elided a).outcome = .error e)) ∨
        (∃ r r', (a.operator_mul elided b).outcome = .ok r ∧
          (b.operator_mul elided a).outcome = .ok r' ∧
          r.get_value = r'.get_value ∧ r.get_function = r'.get_function)) := by
  have hab : (tensor_nan.operator_add true tensor_minus_nan).outcome
      = .ok ⟨[F32.nan true ⟨0x3FFFFF, by decide⟩], TFunction.ADDITION⟩ := rfl
  have hba : (tensor_minus_nan.operator_add true tensor_nan).outcome
      = .ok ⟨[F32.nan false ⟨0x3FFFFF, by decide⟩], TFunction.ADDITION⟩ := rfl
  have mab : (tensor_nan.operator_mul true tensor_minus_nan).outcome
      = .ok ⟨[F32.nan true ⟨0x3FFFFF, by decide⟩], TFunction.PRODUCT⟩ := rfl
  have mba : (tensor_minus_nan.operator_mul true tensor_nan).outcome
      = .ok ⟨[F32.nan false ⟨0x3FFFFF, by decide⟩], TFunction.PRODUCT⟩ := rfl
  refine ⟨hab, hba, mab, mba, by decide, by decide, ?_, ?_⟩
  · intro hall
    rcases hall true tensor_nan tensor_minus_nan with ⟨⟨e, he⟩, _⟩ | ⟨r, r', hr, hr', hv, _⟩
    · rw [hab] at he; cases he
    · rw [hab] at hr; rw [hba] at hr'
      cases hr; cases hr'
      revert hv; decide
  · intro hall
    rcases hall true tensor_nan tensor_minus_nan with ⟨⟨e, he⟩, _⟩ | ⟨r, r', hr, hr', hv, _⟩
    · rw [mab] at he; cases he
    · rw [mab] at hr; rw [mba] at hr'
      cases hr; cases hr'
      revert hv; decide

/-! ## The sentinel among the quotients -/

/-- C15: the element stored for a zero divisor also arises as a quotient.  On `float`,
`[min()] / [1]` returns `[min()]` although the divisor `1` does not compare equal to
zero; so an element of the result equal to `min()` does not tell that the divisor
element was zero. -/
theorem sentinel_is_also_a_quotient :
    (Tensor.ofScalar F32.numeric_limits_min).value.length
      = (Tensor.ofScalar (F32.ofNat 1)).value.length ∧
    ((Tensor.ofScalar F32.numeric_limits_min).operator_div true
        (Tensor.ofScalar (F32.ofNat 1))).outcome
      = .ok ⟨[SupportedType.numeric_limits_min], TFunction.DIVISION⟩ ∧
    ((Tensor.ofScalar F32.numeric_limits_min).operator_div false
        (Tensor.ofScalar (F32.ofNat 1))).outcome
      = .ok ⟨[SupportedType.numeric_limits_min], TFunction.NO_OPERATION⟩ ∧
    (Tensor.ofScalar (F32.ofNat 1)).value[0]? = some (F32.ofNat 1) ∧
    SupportedType.eq (F32.ofNat 1) (SupportedType.zero : F32) = false ∧
    SupportedType.div F32.numeric_limits_min (F32.ofNat 1)
      = (SupportedType.numeric_limits_min : F32) ∧
    (∀ elided : Bool, ¬ (∀ (a b r : Tensor F32) (i : Nat) (y : F32),
        (a.operator_div elided b).outcome = .ok r → b.value[i]? = some y →
        r.value[i]? = some SupportedType.numeric_limits_min →
        SupportedType.eq y SupportedType.zero = true)) := by
  refine ⟨rfl, rfl, rfl, rfl, by decide, by decide, ?_⟩
  intro elided hall
  cases elided with
  | true =>
    have h := hall (Tensor.ofScalar F32.numeric_limits_min) (Tensor.ofScalar (F32.ofNat 1))
      ⟨[SupportedType.numeric_limits_min], TFunction.DIVISION⟩ 0 (F32.ofNat 1) rfl rfl rfl
    revert h
    decide
  | false =>
    have h := hall (Tensor.ofScalar F32.numeric_limits_min) (Tensor.ofScalar (F32.ofNat 1))
      ⟨[SupportedType.numeric_limits_min], TFunction.NO_OPERATION⟩ 0 (F32.ofNat 1) rfl rfl rfl
    revert h
    decide

/-! ## The accessors -/

section Accessors

variable {T : Type}

/-- C12: after `set_value(s)` the tensor returns `s` from `get_value` and the tag it
had from `get_function`; after `set_function(f)` it returns `f` from `get_function` and
the sequence it had from `get_value`; a call of `get_value` or of `get_function` leaves
both members as they were. -/
theorem accessors (t : Tensor T) (s : List T) (f : TFunction) :
    (t.set_value s).get_value = s ∧
    (t.set_value s).get_function = t.get_function ∧
    (t.set_function f).get_function = f ∧
    (t.set_function f).get_value = t.get_value ∧
    t.call_get_value.returned = t.value ∧
    t.call_get_value.self.value = t.value ∧
    t.call_get_value.self.function = t.function ∧
    t.call_get_function.returned = t.function ∧
    t.call_get_function.self.value = t.value ∧
    t.call_get_function.self.function = t.function :=
  ⟨rfl, rfl, rfl, rfl, rfl, rfl, rfl, rfl, rfl, rfl⟩

end Accessors

/-! ## The stream inserter -/

section Printing

variable {T : Type}

/-- The loop of `operator<<` appends to the stream, for each element in order, its
rendering and one space. -/
theorem foldl_render (render : T → String) (values : List T) :
    ∀ stream : String,
      values.foldl (fun stream val => stream ++ render val ++ " ") stream
        = stream ++ values.foldr (fun val rest => render val ++ " " ++ rest) "" := by
  induction values with
  | nil => intro stream; simp
  | cons v vs ih =>
    intro stream
    simp only [List.foldl_cons, List.foldr_cons]
    rw [ih]
    simp only [String.append_assoc]

/-- C11: the rendering of a tensor is `[`, then for each element in order its rendering
and one space, then `]`.  The empty tensor renders as `[]`, the tag has no part in the
rendering, and where the elements `1`, `2`, `3` render as `1`, `2`, `3` the tensor
`[1,2,3]` renders as `[1 2 3 ]`. -/
theorem print_is_bracketed_listing (render : T → String) (stream : String) (t : Tensor T)
    (f : TFunction) (x y z : T) :
    t.print render stream
      = stream ++ "[" ++ t.value.foldr (fun val rest => render val ++ " " ++ rest) "" ++ "]" ∧
    (Tensor.new : Tensor T).print render "" = "[]" ∧
    (t.set_function f).print render stream = t.print render stream ∧
    (render x = "1" → render y = "2" → render z = "3" →
      (Tensor.ofVector [x, y, z]).print render "" = "[1 2 3 ]") := by
  refine ⟨?_, rfl, rfl, ?_⟩
  · simp only [Tensor.print, foldl_render]
  · intro hx hy hz
    simp only [Tensor.print, Tensor.ofVector, List.foldl_cons, List.foldl_nil, hx, hy, hz]
    rfl

end Printing

/-- The tensor `[1,2,3]` of `float` on a stream in its default state, where `1`, `2`
and `3` are written `1`, `2`, `3`: the rendering is `[1 2 3 ]`; and the two lines
`main.cpp` prints. -/
theorem print_is_bracketed_listing_witness :
    F32.render (F32.ofNat 1) = "1" ∧ F32.render (F32.ofNat 2) = "2" ∧
    F32.render (F32.ofNat 3) = "3" ∧
    (Tensor.ofVector [F32.ofNat 1, F32.ofNat 2, F32.ofNat 3]).print F32.render "" = "[1 2 3 ]" ∧
    (Tensor.print F32.render ""
        ⟨[F32.ofInt (-5), F32.ofInt (-5), F32.ofInt (-5), F32.ofInt (-5)], TFunction.SUBSTRACTION⟩)
      = "[-5 -5 -5 -5 ]" ∧
    (Tensor.print F32.render ""
        ⟨[F32.ofNat 54, F32.ofNat 56, F32.ofNat 56, F32.ofNat 54], TFunction.PRODUCT⟩)
      = "[54 56 56 54 ]" :=
  ⟨by decide, by decide, by decide,
    (print_is_bracketed_listing F32.render "" tensor123 TFunction.SIN
      (F32.ofNat 1) (F32.ofNat 2) (F32.ofNat 3)).2.2.2 (by decide) (by decide) (by decide),
    by decide, by decide⟩
